import Mathlib

/-!
Verification development for the incident-mirroring GitHub Action
(`sync-incident` script).  The script's pure logic — Google-Doc link
detection, Markdown table field extraction, date normalization, template
rendering, mirror-issue construction and Project-board field sync — is
shallowly embedded below; text is modelled as `List Char` (with `String`
wrappers), effects as explicit trace lists.
-/

/-! ## Basic character and string utilities (JS semantics) -/

/-- Characters matched by the JavaScript regex class `\s` (WhiteSpace and
LineTerminator code points; ASCII and the common Unicode spaces). -/
def isJsSpace (c : Char) : Bool :=
  c = ' ' || c = '\t' || c = '\n' || c = '\r' || c = '\x0b' || c = '\x0c' ||
  c = '\u00A0' || c = '\u1680' || ('\u2000' ≤ c && c ≤ '\u200A') ||
  c = '\u2028' || c = '\u2029' || c = '\u202F' || c = '\u205F' ||
  c = '\u3000' || c = '\uFEFF'

/-- Drop leading JS whitespace. -/
def jsTrimLeft : List Char → List Char
  | [] => []
  | c :: cs => if isJsSpace c then jsTrimLeft cs else c :: cs

/-- JavaScript `String.prototype.trim`: strip leading and trailing `\s`. -/
def jsTrim (l : List Char) : List Char :=
  ((jsTrimLeft ((jsTrimLeft l).reverse)).reverse)

/-- Match a literal character sequence `p` at the head of `l`; on success
return the remainder of `l`. -/
def dropLit : List Char → List Char → Option (List Char)
  | [], l => some l
  | _ :: _, [] => none
  | p :: ps, c :: cs => if c = p then dropLit ps cs else none

/-- Try alternatives in order, returning the first success
(backtracking-alternation order of a regex engine). -/
def tryFirst {α β : Type} : List α → (α → Option β) → Option β
  | [], _ => none
  | a :: as, f =>
    match f a with
    | some b => some b
    | none => tryFirst as f

/-! ## Field extractor (`extractMarkdownField`)

Embeds, from the source:

```ts
function extractMarkdownField(markdown: string, fieldName: string): string {
  const safeFieldName = fieldName.replace(/[.*+?^${}()|[\]\\]/g, "\\$&");
  const regex = new RegExp(
    `\\|\\s*(?:\\*\\*|__)?${safeFieldName}(?:\\*\\*|__)?\\s*\\|([^|]+)\\|`, "i");
  const match = markdown.match(regex);
  if (match && match[1]) {
    const value = match[1].trim();
    if (value === "SELECT" || value === "" || value === "N/A") {
      return "Not Specified";
    }
    return value;
  }
  return "Not Found";
}
```

The regex search is embedded as a backtracking matcher specialised to this
pattern shape: leftmost match, greedy `\s*` (longest alternative first),
`(?:\*\*|__)?` trying `**`, then `__`, then nothing, and the escaped field
name matched as a case-insensitive literal (ASCII case folding, as all the
script's field names are ASCII). -/

/-- The characters the source escapes in a field name before embedding it
in the regex: the class `[.*+?^${}()|[\]\\]`. -/
def isRegexSpecial (c : Char) : Bool :=
  c = '.' || c = '*' || c = '+' || c = '?' || c = '^' || c = '$' ||
  c = '\x7b' || c = '\x7d' || c = '(' || c = ')' || c = '|' ||
  c = '[' || c = ']' || c = '\\'

/-- `fieldName.replace(/[.*+?^${}()|[\]\\]/g, "\\$&")`: prefix every
regex-special character with a backslash. -/
def escapeRegExp : List Char → List Char
  | [] => []
  | c :: cs =>
    if isRegexSpecial c then '\\' :: c :: escapeRegExp cs
    else c :: escapeRegExp cs

/-- The character sequence a regex source made only of literals and
backslash-escaped literals denotes: a backslash makes the following
character literal. -/
def interpretEscapes : List Char → List Char
  | [] => []
  | c :: cs =>
    if c = '\\' then
      match cs with
      | [] => ['\\']
      | d :: ds => d :: interpretEscapes ds
    else c :: interpretEscapes cs

/-- Suffixes of `l` after consuming a run of `\s`, in greedy backtracking
order: longest consumed run first, down to consuming nothing. -/
def wsSuffixes : List Char → List (List Char)
  | [] => [[]]
  | c :: cs =>
    if isJsSpace c then wsSuffixes cs ++ [c :: cs]
    else [c :: cs]

/-- Suffixes of `l` after the optional group `(?:\*\*|__)?`, in the
engine's order: consume `**`, else consume `__`, else consume nothing. -/
def markerSuffixes (l : List Char) : List (List Char) :=
  (if l.take 2 = ['*', '*'] then [l.drop 2] else []) ++
  (if l.take 2 = ['_', '_'] then [l.drop 2] else []) ++ [l]

/-- Consume the field-name literal case-insensitively (the regex's `i`
flag; ASCII folding). -/
def matchNameCI : List Char → List Char → Option (List Char)
  | [], l => some l
  | _ :: _, [] => none
  | n :: ns, c :: cs =>
    if c.toLower = n.toLower then matchNameCI ns cs else none

/-- Match `([^|]+)\|`: the capture is the (necessarily maximal) nonempty
run of non-`|` characters, which must be followed by `|`. -/
def matchCell (l : List Char) : Option (List Char) :=
  let cell := l.takeWhile (fun c => c ≠ '|')
  if cell.isEmpty then none
  else
    match l.drop cell.length with
    | '|' :: _ => some cell
    | _ => none

/-- Attempt the whole row pattern
`\|\s*(?:\*\*|__)?name(?:\*\*|__)?\s*\|([^|]+)\|` at the head of `l`,
backtracking in the JS engine's order; returns the captured cell. -/
def matchRowHere (name l : List Char) : Option (List Char) :=
  match l with
  | '|' :: rest =>
    tryFirst (wsSuffixes rest) fun l1 =>
    tryFirst (markerSuffixes l1) fun l2 =>
    match matchNameCI name l2 with
    | none => none
    | some l3 =>
      tryFirst (markerSuffixes l3) fun l4 =>
      tryFirst (wsSuffixes l4) fun l5 =>
      match l5 with
      | '|' :: l6 => matchCell l6
      | _ => none
  | _ => none

/-- Leftmost regex search: try the row pattern at every position, first
match wins (JS `String.prototype.match` without `g`). -/
def scanRow (name : List Char) : List Char → Option (List Char)
  | [] => none
  | c :: cs =>
    match matchRowHere name (c :: cs) with
    | some v => some v
    | none => scanRow name cs

/-- The raw captured cell for a field, if some row matches: the source's
`markdown.match(regex)` with the escaped field name compiled back into
the literal it denotes. -/
def findFieldCell (markdown fieldName : String) : Option (List Char) :=
  scanRow (interpretEscapes (escapeRegExp fieldName.data)) markdown.data

/-- `extractMarkdownField` from the source: raw cell, trimmed, with the
placeholder values `"SELECT"`, `""`, `"N/A"` normalised to
`"Not Specified"`, and `"Not Found"` when no row matches. -/
def extractMarkdownField (markdown fieldName : String) : String :=
  match findFieldCell markdown fieldName with
  | some cell =>
    let value := jsTrim cell
    if value = "SELECT".data ∨ value = [] ∨ value = "N/A".data then
      "Not Specified"
    else
      String.mk value
  | none => "Not Found"

/-! ## Document locator (`GOOGLE_DOC_REGEX`)

`const GOOGLE_DOC_REGEX = /docs\.google\.com\/document\/d\/([a-zA-Z0-9-_]+)/;`
applied with `description.match(GOOGLE_DOC_REGEX)`: leftmost match, capture
the greedy id run. -/

/-- The regex class `[a-zA-Z0-9-_]`. -/
def isDocIdChar (c : Char) : Bool :=
  ('a' ≤ c && c ≤ 'z') || ('A' ≤ c && c ≤ 'Z') ||
  ('0' ≤ c && c ≤ '9') || c = '-' || c = '_'

/-- The literal part of `GOOGLE_DOC_REGEX`. -/
def docsNeedle : List Char := "docs.google.com/document/d/".data

/-- Attempt `GOOGLE_DOC_REGEX` at the head of `l`: the literal URL part
followed by one-or-more id characters (greedy capture). -/
def matchDocAt (l : List Char) : Option (List Char) :=
  match dropLit docsNeedle l with
  | none => none
  | some rest =>
    let cid := rest.takeWhile isDocIdChar
    if cid.isEmpty then none else some cid

/-- Leftmost search for `GOOGLE_DOC_REGEX`; returns the captured doc id. -/
def findDocId : List Char → Option (List Char)
  | [] => none
  | c :: cs =>
    match matchDocAt (c :: cs) with
    | some v => some v
    | none => findDocId cs

/-! ## Date normalizer (`formatDateForGitHub`, sync-incident.ts lines 55-82)

Embeds, from the source:

```ts
function formatDateForGitHub(dateString: string): string | null {
  if (!dateString || dateString === "Not Found" || dateString === "Not Specified")
    return null;
  const match = dateString.match(/(\d{4}-\d{2}-\d{2})/);
  if (!match) return null;
  const dateStr = match[1];
  const date = new Date(dateStr);
  if (isNaN(date.getTime())) return null;
  const [year, month, day] = dateStr.split("-").map(Number);
  if (date.getUTCFullYear() !== year || date.getUTCMonth() + 1 !== month ||
      date.getUTCDate() !== day) return null;
  return dateStr;
}
```

On a ten-character `\d{4}-\d{2}-\d{2}` string, `new Date` performs the
ECMAScript date-only ISO parse (at UTC midnight): it yields a valid time
value exactly for real proleptic-Gregorian calendar dates — month 01-12,
day within the month's length, February 29 only in leap years; a
component outside those ranges gives an invalid date — and on a valid
date the `getUTC*` round-trip returns exactly the parsed components.
The `Date` parse plus round-trip check is therefore embedded as
Gregorian calendar validation (`isValidDate`). -/

/-- Attempt the pattern `(\d{4})-(\d{2})-(\d{2})` at the head of `l`;
returns the ten matched characters. -/
def matchDateAt (l : List Char) : Option (List Char) :=
  match l with
  | y1 :: y2 :: y3 :: y4 :: '-' :: m1 :: m2 :: '-' :: d1 :: d2 :: _ =>
    if (y1.isDigit && y2.isDigit && y3.isDigit && y4.isDigit &&
        m1.isDigit && m2.isDigit && d1.isDigit && d2.isDigit) then
      some [y1, y2, y3, y4, '-', m1, m2, '-', d1, d2]
    else none
  | _ => none

/-- Leftmost search for a `\d{4}-\d{2}-\d{2}` substring. -/
def findDate : List Char → Option (List Char)
  | [] => none
  | c :: cs =>
    match matchDateAt (c :: cs) with
    | some v => some v
    | none => findDate cs

/-- Decimal value of a digit run. -/
def digitsToNat (l : List Char) : Nat :=
  l.foldl (fun acc c => acc * 10 + (c.toNat - 48)) 0

/-- Gregorian leap year. -/
def isLeapYear (y : Nat) : Bool :=
  (y % 4 = 0 && y % 100 ≠ 0) || y % 400 = 0

/-- Days in a month of the Gregorian calendar. -/
def daysInMonth (y m : Nat) : Nat :=
  if m = 2 then (if isLeapYear y then 29 else 28)
  else if m = 4 || m = 6 || m = 9 || m = 11 then 30
  else 31

/-- Calendar validity: the parsed year/month/day denote a real date, i.e.
parsing and reformatting reproduces the original digits. -/
def isValidDate (y m d : Nat) : Bool :=
  1 ≤ m && m ≤ 12 && 1 ≤ d && d ≤ daysInMonth y m

/-- `formatDateForGitHub` from the source (lines 55-82): `none` for a
falsy or sentinel input, when no `\d{4}-\d{2}-\d{2}` substring exists,
or when the first such substring fails the `Date`-parse/UTC round-trip
(embedded as calendar validation); otherwise that first substring. -/
def formatDateForGitHub (s : String) : Option String :=
  if s = "" || s = "Not Found" || s = "Not Specified" then none
  else
    match findDate s.data with
    | none => none
    | some ds =>
      let y := digitsToNat (ds.take 4)
      let m := digitsToNat ((ds.drop 5).take 2)
      let d := digitsToNat (ds.drop 8)
      if isValidDate y m d then some (String.mk ds) else none

/-- The strict re-validation `updateProjectDateField` performs at line
209 before its network call: a full-string match of
`/^\d{4}-\d{2}-\d{2}$/`. -/
def isStrictDateFormat (s : String) : Bool :=
  match s.data with
  | [y1, y2, y3, y4, h1, m1, m2, h2, d1, d2] =>
    y1.isDigit && y2.isDigit && y3.isDigit && y4.isDigit &&
    h1 = '-' && m1.isDigit && m2.isDigit && h2 = '-' &&
    d1.isDigit && d2.isDigit
  | _ => false

/-! ## Issue data normalizer and main flow (from the source's main script)

Embeds `parseIssueData`, the `incidentDetails` record, the mirrored issue
body template literal and the `module.exports` control flow.  Console/info
logging and `core.startGroup`/`endGroup` are omitted; warnings, notices,
outputs, network calls and `setFailed` are recorded as trace effects.
Network outcomes (document export, issue creation, comment creation) are
oracles passed in as `Except` values; a thrown error is caught by the
top-level `try`/`catch`, which emits `setFailed ("Sync Failed: " ++ msg)`. -/

/-- The nested `issue` object of the trigger payload.  Optional
sub-objects are `Option`s; JS falsiness (`x || y`) is applied at
normalization. -/
structure RawIssue where
  number : Nat
  title : String
  body : Option String
  userLogin : Option String
  htmlUrl : String
  assigneeLogins : Option (List String)
  state : String
  createdAt : String
  updatedAt : String
  closedAt : Option String
  milestoneTitle : Option String
  labelNames : Option (List String)
  deriving Repr, DecidableEq

/-- The trigger payload: nested `issue` and `repository` objects. -/
structure RawPayload where
  issue : Option RawIssue
  repoFullName : String
  deriving Repr, DecidableEq

/-- JS `s || null`: the empty string is falsy. -/
def orNull (s : String) : Option String :=
  if s = "" then none else some s

/-- The normalized issue record (`IssueData` interface in the source). -/
structure IssueData where
  number : Nat
  title : String
  description : String
  author : Option String
  url : String
  assignees : Option String
  state : String
  createdAt : String
  updatedAt : String
  closedAt : Option String
  repoName : String
  milestone : Option String
  labels : List String
  deriving Repr, DecidableEq

/-- `parseIssueData` from the source: normalize the payload, degrading
missing optional sub-objects with `|| ""`, `|| null`, `|| []`. -/
def parseIssueData (p : RawPayload) (issue : RawIssue) : IssueData :=
  { number := issue.number
    title := issue.title
    description := issue.body.getD ""
    author := issue.userLogin.bind orNull
    url := issue.htmlUrl
    assignees := issue.assigneeLogins.bind
      (fun ls => orNull (String.intercalate ", " ls))
    state := issue.state
    createdAt := issue.createdAt
    updatedAt := issue.updatedAt
    closedAt := issue.closedAt.bind orNull
    repoName := p.repoFullName
    milestone := issue.milestoneTitle.bind orNull
    labels := issue.labelNames.getD [] }

/-- The `incidentDetails` object literal of the source, in insertion
order. -/
structure IncidentDetails where
  incidentNumber : String
  incidentType : String
  openedDate : String
  lastUpdated : String
  lastUpdatedBy : Option String
  closedDate : String
  reportedBy : String
  description : String
  impactedCustomerOrBU : String
  state : String
  priority : String
  assignmentTo : String
  assignmentGroup : String
  affectedSystem : String
  attachmentOptions : String
  deriving Repr, DecidableEq

/-- Build `incidentDetails` from the normalized issue and the fetched
Markdown, by per-field extraction, exactly as the source's object
literal. -/
def mkIncidentDetails (data : IssueData) (docUrl markdownText : String) :
    IncidentDetails :=
  { incidentNumber := "INC-" ++ toString data.number
    incidentType := extractMarkdownField markdownText "Incident type"
    openedDate := extractMarkdownField markdownText "Incident reported on"
    lastUpdated := data.updatedAt
    lastUpdatedBy := data.author
    closedDate := extractMarkdownField markdownText "Incident closed on"
    reportedBy := extractMarkdownField markdownText "Reporter"
    description := extractMarkdownField markdownText "Incident Overview"
    impactedCustomerOrBU :=
      extractMarkdownField markdownText "Customer(s) Impacted"
    state := data.state
    priority := extractMarkdownField markdownText "Priority"
    assignmentTo := extractMarkdownField markdownText "Coordinator"
    assignmentGroup :=
      extractMarkdownField markdownText "Incident owning team (Custodi an)"
    affectedSystem := extractMarkdownField markdownText "Affected system(s)"
    attachmentOptions := docUrl }

/-- Template-literal interpolation of a nullable JS string prints
`null`. -/
def jsShow (o : Option String) : String :=
  match o with
  | some s => s
  | none => "null"

/-- Lowercase hexadecimal digit. -/
def hexDigit (n : Nat) : Char :=
  if n < 10 then Char.ofNat (48 + n) else Char.ofNat (87 + n)

/-- JSON string escaping, as `JSON.stringify` performs on each character. -/
def jsonEscapeChar (c : Char) : List Char :=
  if c = '"' then ['\\', '"']
  else if c = '\\' then ['\\', '\\']
  else if c = '\x08' then ['\\', 'b']
  else if c = '\t' then ['\\', 't']
  else if c = '\n' then ['\\', 'n']
  else if c = '\x0c' then ['\\', 'f']
  else if c = '\r' then ['\\', 'r']
  else if c.toNat < 32 then
    ['\\', 'u', '0', '0', hexDigit (c.toNat / 16), hexDigit (c.toNat % 16)]
  else [c]

/-- A JSON string literal. -/
def jsonStr (s : String) : String :=
  "\"" ++ String.mk (s.data.foldr (fun c acc => jsonEscapeChar c ++ acc) []) ++ "\""

/-- A JSON value for a nullable string. -/
def jsonOptStr (o : Option String) : String :=
  match o with
  | some s => jsonStr s
  | none => "null"

/-- `JSON.stringify(incidentDetails)` as passed to `setOutput`: compact
form, fields in insertion order. -/
def incidentDetailsJson (det : IncidentDetails) : String :=
  "\x7b" ++ String.intercalate ","
    [ "\"incidentNumber\":" ++ jsonStr det.incidentNumber
    , "\"incidentType\":" ++ jsonStr det.incidentType
    , "\"openedDate\":" ++ jsonStr det.openedDate
    , "\"lastUpdated\":" ++ jsonStr det.lastUpdated
    , "\"lastUpdatedBy\":" ++ jsonOptStr det.lastUpdatedBy
    , "\"closedDate\":" ++ jsonStr det.closedDate
    , "\"reportedBy\":" ++ jsonStr det.reportedBy
    , "\"description\":" ++ jsonStr det.description
    , "\"impactedCustomerOrBU\":" ++ jsonStr det.impactedCustomerOrBU
    , "\"state\":" ++ jsonStr det.state
    , "\"priority\":" ++ jsonStr det.priority
    , "\"assignmentTo\":" ++ jsonStr det.assignmentTo
    , "\"assignmentGroup\":" ++ jsonStr det.assignmentGroup
    , "\"affectedSystem\":" ++ jsonStr det.affectedSystem
    , "\"attachmentOptions\":" ++ jsonStr det.attachmentOptions
    ] ++ "\x7d"

/-- The mirrored issue body: the source's template literal, whitespace
included. -/
def mirroredIssueBody (data : IssueData) (det : IncidentDetails) : String :=
  "\n        ### Description\n        " ++ data.description ++
  "\n\n        ---\n\n        ## Security Incident Report\n\n" ++
  "        | Field | Value |\n        |---|---|\n" ++
  "        | **Incident #** | " ++ det.incidentNumber ++ " |\n" ++
  "        | **Incident Type** | " ++ det.incidentType ++ " |\n" ++
  "        | **Opened Date** | " ++ det.openedDate ++ " |\n" ++
  "        | **Last Updated** | " ++ det.lastUpdated ++ " |\n" ++
  "        | **Last Updated By** | " ++ jsShow det.lastUpdatedBy ++ " |\n" ++
  "        | **Closed Date** | " ++ det.closedDate ++ " |\n" ++
  "        | **Reported By** | " ++ det.reportedBy ++ " |\n" ++
  "        | **Description** | " ++ det.description ++ " |\n" ++
  "        | **Priority** | " ++ det.priority ++ " |\n" ++
  "        | **State** | " ++ det.state ++ " |\n" ++
  "        | **Impacted BU/Customer** | " ++ det.impactedCustomerOrBU ++ " |\n" ++
  "        | **Affected System** | " ++ det.affectedSystem ++ " |\n" ++
  "        | **Assignment Group** | " ++ det.assignmentGroup ++ " |\n" ++
  "        | **Assignment To** | " ++ det.assignmentTo ++ " |\n" ++
  "        | **Service/Product/Scope/system/Tool** | " ++ det.assignmentTo ++ " |\n" ++
  "        | **Attachment options for incident report** | " ++ det.attachmentOptions ++ " |\n" ++
  "        ---\n\n" ++
  "        **Original Issue:** [" ++ data.repoName ++ "#" ++
    toString data.number ++ "](" ++ data.url ++ ")\n" ++
  "        **Original Author:** [" ++ jsShow data.author ++
    "](https://github.com/" ++ jsShow data.author ++ ")\n" ++
  "        **Google Doc Report:** [View Full Document](" ++
    det.attachmentOptions ++ ")\n    "

/-- The issue-creation request of the source's
`github.rest.issues.create` call. -/
structure MirrorIssueReq where
  owner : String
  repo : String
  title : String
  body : String
  labels : List String
  milestones : Option (List String)
  deriving Repr, DecidableEq

/-- Trace effects of one run of the main script. -/
inductive MEffect where
  | warning (msg : String)
  | notice (msg : String)
  | fetchDoc (docId : String)
  | setOutput (key val : String)
  | createIssue (req : MirrorIssueReq)
  | createComment (body : String)
  | setFailed (msg : String)
  deriving Repr, DecidableEq

/-- The `module.exports` control flow of the main script, as a trace of
effects.  `fetchResult` is the outcome of `fetchGoogleDocContent`
(including its own credential check, whose failure is the thrown
`"Missing GCP Secrets."`); `createResult` and `commentResult` are the
outcomes of the two GitHub calls.  Any `.error` is caught by the
top-level handler, producing `setFailed`. -/
def syncIncidentRun (p : RawPayload)
    (fetchResult : String → Except String String)
    (createResult : Except String String)
    (commentResult : Except String Unit) : List MEffect :=
  match p.issue with
  | none => [.setFailed "Sync Failed: No issue payload found."]
  | some issue =>
    let data := parseIssueData p issue
    match findDocId data.description.data with
    | none => [.warning "No Google Doc link found in description. Exiting."]
    | some docIdChars =>
      let docId := String.mk docIdChars
      let docUrl := "https://docs.google.com/document/d/" ++ docId
      let pre := [MEffect.notice ("Security Report Found: " ++ docId),
                  MEffect.fetchDoc docId]
      match fetchResult docId with
      | .error e => pre ++ [.setFailed ("Sync Failed: " ++ e)]
      | .ok markdownText =>
        let det := mkIncidentDetails data docUrl markdownText
        let req : MirrorIssueReq :=
          { owner := "IshanHansaka"
            repo := "centralised-repo"
            title := data.title
            body := mirroredIssueBody data det
            labels := data.labels ++ ["mirrored-incident"]
            milestones := data.milestone.map (fun m => [m]) }
        let pre2 := pre ++
          [MEffect.setOutput "incident_data_json" (incidentDetailsJson det),
           MEffect.createIssue req]
        match createResult with
        | .error e => pre2 ++ [.setFailed ("Sync Failed: " ++ e)]
        | .ok newUrl =>
          let pre3 := pre2 ++
            [MEffect.notice ("Mirrored issue created successfully: " ++ newUrl)]
          match commentResult with
          | .error e => pre3 ++ [.setFailed ("Sync Failed: " ++ e)]
          | .ok _ => pre3 ++
            [MEffect.createComment
              ("**Incident Mirrored Successfully**\nA mirrored ticket containing the parsed document data has been created in the centralized repository: " ++ newUrl)]

/-! ## Template renderer (sync-incident.ts lines 309-342)

The final revision reads the template file
`.github/templates/incident-mirror.md` and renders it with:

```ts
for (const [placeholder, value] of Object.entries(replacements)) {
  mirroredIssueBody = mirroredIssueBody.split(placeholder).join(value);
}
```

For a nonempty literal separator, `s.split(p).join(v)` replaces every
non-overlapping occurrence of `p`, scanning left to right and continuing
after each replacement — the semantics embedded below.  `Object.entries`
enumerates the map in insertion order, and each pass rewrites the body
produced by the previous passes. -/

/-- Fuel-indexed scanner for `replaceAll`; with fuel at least the text's
length (as the wrapper supplies) it scans left to right, replacing
non-overlapping occurrences of `p0 :: ps` and continuing after each
replacement. -/
def replaceAllAux (p0 : Char) (ps rep : List Char) : Nat → List Char → List Char
  | _, [] => []
  | 0, c :: cs => c :: cs
  | n + 1, c :: cs =>
    if c = p0 then
      match dropLit ps cs with
      | some rest => rep ++ replaceAllAux p0 ps rep n rest
      | none => c :: replaceAllAux p0 ps rep n cs
    else c :: replaceAllAux p0 ps rep n cs

/-- JS `String.prototype.replaceAll` with the literal nonempty pattern
`p0 :: ps`. -/
def replaceAllLit (p0 : Char) (ps rep l : List Char) : List Char :=
  replaceAllAux p0 ps rep l.length l

/-- One iteration of the loop at line 341,
`mirroredIssueBody.split(placeholder).join(value)`: every literal
occurrence of one placeholder replaced by its value (an empty
placeholder never arises; it is a no-op here). -/
def replacePass (l : List Char) (kv : List Char × List Char) : List Char :=
  match kv.1 with
  | [] => l
  | p0 :: ps => replaceAllLit p0 ps kv.2 l

/-- The rendering loop of lines 340-342: the replacement map's entries
applied one placeholder at a time, in enumeration (insertion) order,
each over the already-rewritten body. -/
def renderTemplate (repl : List (List Char × List Char))
    (template : List Char) : List Char :=
  repl.foldl replacePass template

/-- Whether `pat` occurs as a contiguous substring. -/
def occursB (pat : List Char) : List Char → Bool
  | [] => pat.isEmpty
  | c :: cs => (dropLit pat (c :: cs)).isSome || occursB pat cs

/-- A placeholder token: two opening braces, a name, two closing
braces. -/
def mkTok (w : List Char) : List Char :=
  '\x7b' :: '\x7b' :: (w ++ ['\x7d', '\x7d'])

/-- No brace character occurs. -/
def braceFree (l : List Char) : Bool :=
  l.all (fun c => c ≠ '\x7b' && c ≠ '\x7d')

/-- A template decomposed into literal text and placeholder tokens. -/
inductive Seg where
  | text (s : List Char)
  | tok (w : List Char)
  deriving Repr, DecidableEq

/-- The character content of a segment. -/
def Seg.flat : Seg → List Char
  | .text s => s
  | .tok w => mkTok w

/-- The template a segment list denotes. -/
def flattenSegs (segs : List Seg) : List Char :=
  (segs.map Seg.flat).flatten

/-- The spec-words alternative semantics, for comparison: simultaneous
substitution of the original template's tokens only. -/
def simultaneousRender (repl : List (List Char × List Char))
    (segs : List Seg) : List Char :=
  (segs.map (fun s =>
    match s with
    | .text t => t
    | .tok w =>
      match repl.find? (fun kv => kv.1 = mkTok w) with
      | some kv => kv.2
      | none => mkTok w)).flatten

/-- One segment after one token's pass: the matched tokens become the
value, everything else is unchanged. -/
def substSeg (w v : List Char) : Seg → Seg
  | .text s => .text s
  | .tok u => if u = w then .text v else .tok u

/-- Well-formed segment: literal text is brace-free; a token's name is
brace-free and nonempty. -/
def segWf : Seg → Prop
  | .text s => braceFree s = true
  | .tok w => braceFree w = true ∧ w ≠ []

/-- Decidable token-shape check: two opening braces, a nonempty
brace-free name, two closing braces; returns the name. -/
def tokName? (k : List Char) : Option (List Char) :=
  match k with
  | '\x7b' :: '\x7b' :: rest =>
    let w := rest.take (rest.length - 2)
    if rest = w ++ ['\x7d', '\x7d'] && braceFree w && !w.isEmpty then some w
    else none
  | _ => none

/-- Decidable well-formedness of a replacement map: every key is a
well-shaped token and every value is brace-free. -/
def checkRepl (repl : List (List Char × List Char)) : Bool :=
  repl.all (fun kv => (tokName? kv.1).isSome && braceFree kv.2)

/-- Decidable well-formedness of a segment. -/
def segWfB : Seg → Bool
  | .text s => braceFree s
  | .tok w => braceFree w && !w.isEmpty

/-- Decidable check that every token of the segment list carries a key
of the map. -/
def checkSegs (repl : List (List Char × List Char)) (segs : List Seg) : Bool :=
  segs.all (fun s =>
    match s with
    | .text _ => true
    | .tok u => repl.any (fun kv => kv.1 = mkTok u))


/-! ## Final-revision main flow (sync-incident.ts lines 240-526)

Embeds the final revision: its `IssueData`/`parseIssueData` (lines
3-34), the `incidentDetails` literal (lines 272-294), the template file
`.github/templates/incident-mirror.md` and the `replacements` map
(lines 309-342), the issue-creation request (lines 364-371), the
Project V2 helpers `getFieldId` (lines 399-400), `updateProjectTextField`
(lines 169-189) and `updateProjectDateField` (lines 192-235), and the
`module.exports` control flow: doc-link detection, document fetch, field
extraction, rendering, the environment checks (lines 349-353), mirror
creation, the `PROJECT_NUMBER` check whose throw (lines 380-382) sits
outside the inner `try`, the best-effort Project-Sync `try`/`catch`
(lines 384-514), the back-link comment (lines 517-522), and the
top-level `catch` (line 524).  Console/info logging is omitted;
warnings, notices, network calls and `setFailed` are trace effects;
network outcomes are `Except` oracles.  The field-update mutations are
modelled as succeeding: a transport failure inside one follows the same
caught path as a failing schema fetch or item attach, which the two
GraphQL oracles cover. -/

/-- The final revision's `IssueData` (lines 3-15): assignees kept as a
list (`?.map(...) || []`), no milestone and no creation date. -/
structure IssueDataV2 where
  number : Nat
  title : String
  description : String
  author : Option String
  url : String
  assignees : List String
  state : String
  updatedAt : String
  closedAt : Option String
  repoName : String
  labels : List String
  deriving Repr, DecidableEq

/-- `parseIssueData` of the final revision (lines 18-34). -/
def parseIssueDataV2 (p : RawPayload) (issue : RawIssue) : IssueDataV2 :=
  { number := issue.number
    title := issue.title
    description := issue.body.getD ""
    author := issue.userLogin.bind orNull
    url := issue.htmlUrl
    assignees := issue.assigneeLogins.getD []
    state := issue.state
    updatedAt := issue.updatedAt
    closedAt := issue.closedAt.bind orNull
    repoName := p.repoFullName
    labels := issue.labelNames.getD [] }

/-- The `incidentDetails` object literal of the final revision (lines
272-294; the same extraction calls as the earlier revision). -/
def mkIncidentDetailsV2 (data : IssueDataV2) (docUrl markdownText : String) :
    IncidentDetails :=
  { incidentNumber := "INC-" ++ toString data.number
    incidentType := extractMarkdownField markdownText "Incident type"
    openedDate := extractMarkdownField markdownText "Incident reported on"
    lastUpdated := data.updatedAt
    lastUpdatedBy := data.author
    closedDate := extractMarkdownField markdownText "Incident closed on"
    reportedBy := extractMarkdownField markdownText "Reporter"
    description := extractMarkdownField markdownText "Incident Overview"
    impactedCustomerOrBU :=
      extractMarkdownField markdownText "Customer(s) Impacted"
    state := data.state
    priority := extractMarkdownField markdownText "Priority"
    assignmentTo := extractMarkdownField markdownText "Coordinator"
    assignmentGroup :=
      extractMarkdownField markdownText "Incident owning team (Custodi an)"
    affectedSystem := extractMarkdownField markdownText "Affected system(s)"
    attachmentOptions := docUrl }

/-- The content of `.github/templates/incident-mirror.md`, read by the
final revision at lines 310-315. -/
def incidentMirrorTemplate : String :=
  String.intercalate "\n" [
    "### Description",
    "",
    "\x7b\x7bDESCRIPTION\x7d\x7d",
    "",
    "## Security Incident Report",
    "",
    "| Field                     | Value                  |",
    "| ------------------------- | ---------------------- |",
    "| **Incident #**            | \x7b\x7bINCIDENT_NUMBER\x7d\x7d    |",
    "| **Incident Type**         | \x7b\x7bINCIDENT_TYPE\x7d\x7d      |",
    "| **Opened Date**           | \x7b\x7bOPENED_DATE\x7d\x7d        |",
    "| **Last Updated**          | \x7b\x7bLAST_UPDATED\x7d\x7d       |",
    "| **Last Updated By**       | \x7b\x7bLAST_UPDATED_BY\x7d\x7d    |",
    "| **Closed Date**           | \x7b\x7bCLOSED_DATE\x7d\x7d        |",
    "| **Reported By**           | \x7b\x7bREPORTED_BY\x7d\x7d        |",
    "| **Description**           | \x7b\x7bDOC_DESCRIPTION\x7d\x7d    |",
    "| **Priority**              | \x7b\x7bPRIORITY\x7d\x7d           |",
    "| **State**                 | \x7b\x7bSTATE\x7d\x7d              |",
    "| **Impacted BU/Customer**  | \x7b\x7bIMPACTED_BU\x7d\x7d        |",
    "| **Affected System**       | \x7b\x7bAFFECTED_SYSTEM\x7d\x7d    |",
    "| **Assignment Group**      | \x7b\x7bASSIGNMENT_GROUP\x7d\x7d   |",
    "| **Assignment To**         | \x7b\x7bASSIGNMENT_TO\x7d\x7d      |",
    "| **Service/Product/Scope** | \x7b\x7bASSIGNMENT_TO\x7d\x7d      |",
    "| **Attachment options**    | \x7b\x7bATTACHMENT_OPTIONS\x7d\x7d |",
    "",
    "---",
    "",
    "**Original Issue:** [\x7b\x7bREPO_NAME\x7d\x7d#\x7b\x7bISSUE_NUMBER\x7d\x7d](\x7b\x7bISSUE_URL\x7d\x7d)",
    "**Original Author:** [@\x7b\x7bAUTHOR\x7d\x7d](https://github.com/\x7b\x7bAUTHOR\x7d\x7d)",
    "**Google Doc Report:** \x7b\x7bATTACHMENT_OPTIONS\x7d\x7d"
  ] ++ "\n"

/-- The `replacements` map (lines 317-338) in insertion order — the
order `Object.entries` enumerates it. -/
def replacements (data : IssueDataV2) (det : IncidentDetails) :
    List (List Char × List Char) :=
  [("\x7b\x7bDESCRIPTION\x7d\x7d".data, data.description.data),
   ("\x7b\x7bINCIDENT_NUMBER\x7d\x7d".data, det.incidentNumber.data),
   ("\x7b\x7bINCIDENT_TYPE\x7d\x7d".data, det.incidentType.data),
   ("\x7b\x7bOPENED_DATE\x7d\x7d".data, det.openedDate.data),
   ("\x7b\x7bLAST_UPDATED\x7d\x7d".data, det.lastUpdated.data),
   ("\x7b\x7bLAST_UPDATED_BY\x7d\x7d".data, (det.lastUpdatedBy.getD "").data),
   ("\x7b\x7bCLOSED_DATE\x7d\x7d".data, det.closedDate.data),
   ("\x7b\x7bREPORTED_BY\x7d\x7d".data, det.reportedBy.data),
   ("\x7b\x7bDOC_DESCRIPTION\x7d\x7d".data, det.description.data),
   ("\x7b\x7bPRIORITY\x7d\x7d".data, det.priority.data),
   ("\x7b\x7bSTATE\x7d\x7d".data, det.state.data),
   ("\x7b\x7bIMPACTED_BU\x7d\x7d".data, det.impactedCustomerOrBU.data),
   ("\x7b\x7bAFFECTED_SYSTEM\x7d\x7d".data, det.affectedSystem.data),
   ("\x7b\x7bASSIGNMENT_GROUP\x7d\x7d".data, det.assignmentGroup.data),
   ("\x7b\x7bASSIGNMENT_TO\x7d\x7d".data, det.assignmentTo.data),
   ("\x7b\x7bATTACHMENT_OPTIONS\x7d\x7d".data, det.attachmentOptions.data),
   ("\x7b\x7bREPO_NAME\x7d\x7d".data, data.repoName.data),
   ("\x7b\x7bISSUE_NUMBER\x7d\x7d".data, (toString data.number).data),
   ("\x7b\x7bISSUE_URL\x7d\x7d".data, data.url.data),
   ("\x7b\x7bAUTHOR\x7d\x7d".data, (data.author.getD "Unknown").data)]

/-- The argument object of the `targetClient.rest.issues.create` call
(lines 364-371). -/
structure MirrorRequest where
  owner : String
  repo : String
  title : String
  body : String
  labels : List String
  assignees : Option (List String)
  deriving Repr, DecidableEq

/-- The issue-creation request of lines 364-371: title copied verbatim,
the rendered body, source labels plus the fixed marker label, and
`assignees` `undefined` (omitted) when the source list is empty. -/
def mirrorIssueRequest (tOwner tRepo : String) (data : IssueDataV2)
    (body : String) : MirrorRequest :=
  { owner := tOwner
    repo := tRepo
    title := data.title
    body := body
    labels := data.labels ++ ["mirrored-incident"]
    assignees :=
      if data.assignees.length > 0 then some data.assignees else none }

/-- Trace effects of the final revision's run. -/
inductive PEffect where
  | warning (msg : String)
  | notice (msg : String)
  | fetchDoc (docId : String)
  | createIssue (req : MirrorRequest)
  | attachItem
  | fieldMutation (fieldId value : String)
  | dateMutation (fieldId value : String)
  | syncWarning (msg : String)
  | createComment (body : String)
  | setFailed (msg : String)
  deriving Repr, DecidableEq

/-- `true` exactly on a back-link-comment effect. -/
def isCreateComment : PEffect → Bool
  | .createComment _ => true
  | _ => false

/-- `true` exactly on a mirror-creation effect. -/
def isCreateIssue : PEffect → Bool
  | .createIssue _ => true
  | _ => false

/-- The board data `getProjectData` (lines 124-150) returns: the project
id and the field nodes as (name, id) pairs. -/
structure ProjectV2Data where
  projectId : String
  fields : List (String × String)
  deriving Repr, DecidableEq

/-- `getFieldId` (lines 399-400):
`fields.find((field) => field.name === name)?.id`. -/
def getFieldId (fields : List (String × String)) (name : String) :
    Option String :=
  (fields.find? (fun f => f.1 = name)).map Prod.snd

/-- The value guard inline at line 176, negated: the value is truthy and
neither sentinel. -/
def isWritableValue (value : String) : Bool :=
  value ≠ "Not Found" && value ≠ "Not Specified" && value ≠ ""

/-- `updateProjectTextField` (lines 169-189): the mutation is issued
only when a field id was found and the value passes the guard;
otherwise the call returns without raising. -/
def updateProjectTextField (fieldId : Option String) (value : String) :
    Option PEffect :=
  match fieldId with
  | some fid =>
    if isWritableValue value then some (.fieldMutation fid value) else none
  | none => none

/-- `updateProjectDateField` (lines 192-235): skips on a missing field
id, a null or empty value, or a value failing the strict
`/^\d{4}-\d{2}-\d{2}$/` re-validation; otherwise issues the date
mutation. -/
def updateProjectDateField (fieldId : Option String)
    (value : Option String) : Option PEffect :=
  match fieldId with
  | none => none
  | some fid =>
    match value with
    | none => none
    | some v =>
      if v = "" then none
      else if isStrictDateFormat v then some (.dateMutation fid v)
      else none

/-- The eleven text-field updates of lines 403-479, as (name, value)
pairs in call order. -/
def textFieldPairs (det : IncidentDetails) : List (String × String) :=
  [("Incident #", det.incidentNumber),
   ("Incident Type", det.incidentType),
   ("Reported By", det.reportedBy),
   ("Description", det.description),
   ("Impacted WSO2 BU or Customer", det.impactedCustomerOrBU),
   ("Category/Rating/Priority", det.priority),
   ("Assignment Group/Team", det.assignmentGroup),
   ("Last Updated By", det.lastUpdatedBy.getD ""),
   ("Assignment To", det.assignmentTo),
   ("Service/Product/Scope/system/Tool", det.affectedSystem),
   ("Attachment options for incident report", det.attachmentOptions)]

/-- The three date-field updates of lines 483-506, as (name, value)
pairs in call order; the values are pre-normalized by
`formatDateForGitHub`. -/
def dateFieldPairs (det : IncidentDetails) :
    List (String × Option String) :=
  [("Opened Date", formatDateForGitHub det.openedDate),
   ("Closed date", formatDateForGitHub det.closedDate),
   ("Last Updated", formatDateForGitHub det.lastUpdated)]

/-- The mutations the sync `try` block issues once the item is attached:
each pair through its update function's guard. -/
def projectSyncMutations (fields : List (String × String))
    (det : IncidentDetails) : List PEffect :=
  (textFieldPairs det).filterMap
    (fun f => updateProjectTextField (getFieldId fields f.1) f.2) ++
  (dateFieldPairs det).filterMap
    (fun f => updateProjectDateField (getFieldId fields f.1) f.2)

/-- The back-link comment body (lines 517-522). -/
def commentBody (newUrl : String) : String :=
  "**Incident Mirrored Successfully**\nA mirrored ticket containing the parsed document data has been created in the centralized repository: "
    ++ newUrl

/-- The run's tail after a successful mirror creation (lines 376-522):
the `PROJECT_NUMBER` check, whose throw (lines 380-382) escapes to the
top-level catch; the sync `try`/`catch`, which turns any failure inside
into the non-fatal warning of lines 511-513; and the back-link comment,
whose own failure also escapes to the top-level catch. -/
def v2TailEffects (projectNumber : Option String)
    (projectDataResult : Except String ProjectV2Data)
    (addItemResult : Except String String)
    (commentResult : Except String Unit)
    (det : IncidentDetails) (newUrl : String) : List PEffect :=
  match projectNumber with
  | none =>
    [.setFailed "Sync Failed: Missing PROJECT_NUMBER in environment variables."]
  | some _ =>
    let syncEffs :=
      match projectDataResult with
      | .error e =>
        [PEffect.syncWarning
          ("Issue created, but failed to sync to Project: " ++ e)]
      | .ok pd =>
        match addItemResult with
        | .error e =>
          [PEffect.syncWarning
            ("Issue created, but failed to sync to Project: " ++ e)]
        | .ok _ =>
          PEffect.attachItem :: projectSyncMutations pd.fields det ++
            [PEffect.notice "Successfully synced data to Project V2!"]
    syncEffs ++ [PEffect.createComment (commentBody newUrl)] ++
      (match commentResult with
       | .error e => [PEffect.setFailed ("Sync Failed: " ++ e)]
       | .ok _ => [])

/-- Environment configuration (lines 345-347 and 378) after JS
falsiness: `none` stands for a missing or empty variable. -/
structure EnvConfig where
  targetOwner : Option String
  targetRepo : Option String
  projectToken : Option String
  projectNumber : Option String
  deriving Repr, DecidableEq

/-- The final revision's `module.exports` control flow (lines 240-526)
as a trace of effects. -/
def syncIncidentV2Run (p : RawPayload) (env : EnvConfig)
    (fetchResult : String → Except String String)
    (createResult : Except String (String × String))
    (projectDataResult : Except String ProjectV2Data)
    (addItemResult : Except String String)
    (commentResult : Except String Unit) : List PEffect :=
  match p.issue with
  | none => [.setFailed "Sync Failed: No issue payload found."]
  | some issue =>
    let data := parseIssueDataV2 p issue
    match findDocId data.description.data with
    | none => [.warning "No Google Doc link found in description. Exiting."]
    | some docIdChars =>
      let docId := String.mk docIdChars
      let docUrl := "https://docs.google.com/document/d/" ++ docId
      let pre := [PEffect.notice
          ("Security Incident Report Found: https://docs.google.com/document/d/"
            ++ docId),
        PEffect.fetchDoc docId]
      match fetchResult docId with
      | .error e => pre ++ [.setFailed ("Sync Failed: " ++ e)]
      | .ok markdownText =>
        let det := mkIncidentDetailsV2 data docUrl markdownText
        let body := String.mk
          (renderTemplate (replacements data det) incidentMirrorTemplate.data)
        match env.targetOwner, env.targetRepo, env.projectToken with
        | some tOwner, some tRepo, some _ =>
          let pre2 := pre ++
            [PEffect.createIssue (mirrorIssueRequest tOwner tRepo data body)]
          match createResult with
          | .error e => pre2 ++ [.setFailed ("Sync Failed: " ++ e)]
          | .ok (newUrl, _) =>
            pre2 ++ [PEffect.notice ("Mirrored issue created: " ++ newUrl)] ++
              v2TailEffects env.projectNumber projectDataResult addItemResult
                commentResult det newUrl
        | _, _, _ => pre ++
            [.setFailed
              "Sync Failed: Missing TARGET_OWNER, TARGET_REPO, or PROJECT_ACCESS_TOKEN in env."]

/-! ## Concrete scenario inputs for witnesses and counterexamples -/

/-- A concrete source issue whose description contains the literal text
of the later `PRIORITY` placeholder. -/
def dataSeq : IssueDataV2 :=
  { number := 42
    title := "Outage"
    description := "See \x7b\x7bPRIORITY\x7d\x7d for details"
    author := some "alice"
    url := "https://github.com/acme/repo/issues/42"
    assignees := ["alice"]
    state := "open"
    updatedAt := "2024-03-15T10:00:00Z"
    closedAt := none
    repoName := "acme/repo"
    labels := ["bug"] }

/-- Concrete extracted incident details for the rendering scenarios. -/
def detSeq : IncidentDetails :=
  { incidentNumber := "INC-42"
    incidentType := "Phishing"
    openedDate := "2024-03-10"
    lastUpdated := "2024-03-15T10:00:00Z"
    lastUpdatedBy := some "alice"
    closedDate := "Not Found"
    reportedBy := "bob"
    description := "Mail compromise"
    impactedCustomerOrBU := "Acme"
    state := "open"
    priority := "P1"
    assignmentTo := "carol"
    assignmentGroup := "secops"
    affectedSystem := "mail"
    attachmentOptions := "https://docs.google.com/document/d/ABC123" }

/-- The same issue with a brace-free description. -/
def dataPlain : IssueDataV2 :=
  { dataSeq with description := "Credential phishing incident" }

/-- A small segment template whose tokens are all in the program's
replacement map. -/
def segsC5 : List Seg :=
  [Seg.text "Issue: ".data, Seg.tok "DESCRIPTION".data,
   Seg.text " / ".data, Seg.tok "PRIORITY".data]

/-- A concrete trigger issue whose description carries a Google-Doc
link. -/
def issueWithLink : RawIssue :=
  { number := 42
    title := "Outage"
    body := some "Report: https://docs.google.com/document/d/ABC123/edit"
    userLogin := some "alice"
    htmlUrl := "https://github.com/acme/repo/issues/42"
    assigneeLogins := some ["alice"]
    state := "open"
    createdAt := "2024-03-01T00:00:00Z"
    updatedAt := "2024-03-15T10:00:00Z"
    closedAt := none
    milestoneTitle := none
    labelNames := some ["bug"] }

/-- The payload wrapping `issueWithLink`. -/
def payloadWithLink : RawPayload := ⟨some issueWithLink, "acme/repo"⟩

/-- A concrete fetched document body. -/
def docMarkdown : String := "| **Priority** | P1 |"

/-! ## Supporting lemmas -/

theorem dropLit_length {p l r : List Char} (h : dropLit p l = some r) :
    r.length ≤ l.length := by
  induction p generalizing l with
  | nil =>
    simp only [dropLit, Option.some.injEq] at h
    subst h; exact Nat.le_refl _
  | cons a as ih =>
    cases l with
    | nil => simp [dropLit] at h
    | cons c cs =>
      simp only [dropLit] at h
      split at h
      · exact Nat.le_succ_of_le (ih h)
      · exact absurd h (by simp)

theorem dropLit_eq_append {p l r : List Char} (h : dropLit p l = some r) :
    l = p ++ r := by
  induction p generalizing l with
  | nil =>
    simp only [dropLit, Option.some.injEq] at h
    simp [h]
  | cons a as ih =>
    cases l with
    | nil => simp [dropLit] at h
    | cons c cs =>
      simp only [dropLit] at h
      split at h
      · rename_i hc
        simp [hc, ih h]
      · exact absurd h (by simp)

theorem dropLit_self_append (p r : List Char) : dropLit p (p ++ r) = some r := by
  induction p with
  | nil => rfl
  | cons a as ih => simp [dropLit, ih]

theorem dropLit_cons {p0 c : Char} {ps cs r : List Char}
    (h : dropLit (p0 :: ps) (c :: cs) = some r) :
    c = p0 ∧ dropLit ps cs = some r := by
  simp only [dropLit] at h
  split at h
  · rename_i hc
    exact ⟨hc, h⟩
  · exact absurd h (by simp)

theorem replaceAllAux_fuel (p0 : Char) (ps rep : List Char) :
    ∀ n m l, l.length ≤ n → l.length ≤ m →
      replaceAllAux p0 ps rep n l = replaceAllAux p0 ps rep m l := by
  intro n
  induction n with
  | zero =>
    intro m l hn _
    cases l with
    | nil => cases m <;> rfl
    | cons c cs => simp at hn
  | succ n ih =>
    intro m l hn hm
    cases l with
    | nil => cases m <;> rfl
    | cons c cs =>
      cases m with
      | zero => simp at hm
      | succ m =>
        simp only [List.length_cons, Nat.succ_le_succ_iff] at hn hm
        simp only [replaceAllAux]
        by_cases hc : c = p0
        · simp only [hc, if_true]
          cases hd : dropLit ps cs with
          | some rest =>
            have hr : rest.length ≤ cs.length := dropLit_length hd
            exact congrArg (fun x => rep ++ x)
              (ih m rest (le_trans hr hn) (le_trans hr hm))
          | none =>
            exact congrArg (fun x => _ :: x) (ih m cs hn hm)
        · simp only [hc, if_false]
          exact congrArg (fun x => c :: x) (ih m cs hn hm)

theorem replaceAllLit_match {p0 : Char} {ps : List Char} (rep : List Char)
    {c : Char} {cs rest : List Char} (hc : c = p0)
    (hd : dropLit ps cs = some rest) :
    replaceAllLit p0 ps rep (c :: cs) = rep ++ replaceAllLit p0 ps rep rest := by
  subst hc
  unfold replaceAllLit
  have hlen : rest.length ≤ cs.length := dropLit_length hd
  simp only [List.length_cons, replaceAllAux, if_pos rfl, hd]
  rw [replaceAllAux_fuel _ _ _ cs.length rest.length rest hlen (le_refl _)]
  simp

theorem replaceAllLit_nomatch {p0 : Char} {ps : List Char} (rep : List Char)
    {c : Char} {cs : List Char}
    (h : dropLit (p0 :: ps) (c :: cs) = none) :
    replaceAllLit p0 ps rep (c :: cs) = c :: replaceAllLit p0 ps rep cs := by
  unfold replaceAllLit
  simp only [List.length_cons, replaceAllAux]
  by_cases hc : c = p0
  · subst hc
    simp only [dropLit] at h
    simp only [if_pos rfl]
    simp at h
    simp [h]
  · simp [hc]

theorem replaceAllLit_skip {p0 : Char} {ps rep : List Char} :
    ∀ {s : List Char}, (∀ c ∈ s, c ≠ p0) → ∀ r,
      replaceAllLit p0 ps rep (s ++ r) = s ++ replaceAllLit p0 ps rep r := by
  intro s
  induction s with
  | nil => intro _ r; rfl
  | cons c cs ih =>
    intro h r
    have hc : c ≠ p0 := h c (by simp)
    have hnone : dropLit (p0 :: ps) (c :: (cs ++ r)) = none := by
      simp [dropLit, hc]
    rw [List.cons_append, replaceAllLit_nomatch rep hnone,
      ih (fun x hx => h x (by simp [hx])) r]
    rfl

theorem replaceAllLit_of_not_occurs {p0 : Char} {ps rep : List Char} :
    ∀ {l : List Char}, occursB (p0 :: ps) l = false →
      replaceAllLit p0 ps rep l = l := by
  intro l
  induction l with
  | nil => intro _; rfl
  | cons c cs ih =>
    intro h
    simp only [occursB, Bool.or_eq_false_iff] at h
    have hnone : dropLit (p0 :: ps) (c :: cs) = none := by
      cases hd : dropLit (p0 :: ps) (c :: cs) with
      | some r => rw [hd] at h; simp at h
      | none => rfl
    rw [replaceAllLit_nomatch rep hnone, ih h.2]

/-! ## Claim theorems -/

/-- C1: `formatDateForGitHub` returns absent for sentinel inputs
(`"Not Found"`, `"Not Specified"`) and whenever no
4-digit-2-digit-2-digit substring exists; `"Incident reported on
2024-02-30"` is rejected although it matches the digit pattern (day 30
of February fails calendar arithmetic: the pattern-identical
`"2024-02-29"` is accepted in the leap year and `"2023-02-29"` is
rejected), and `"2024-03-15"` is returned verbatim. -/
theorem formatDateForGitHub_spec :
    formatDateForGitHub "Incident reported on 2024-02-30" = none ∧
    formatDateForGitHub "2024-03-15" = some "2024-03-15" ∧
    formatDateForGitHub "Not Found" = none ∧
    formatDateForGitHub "Not Specified" = none ∧
    formatDateForGitHub "2024-02-29" = some "2024-02-29" ∧
    formatDateForGitHub "2023-02-29" = none ∧
    formatDateForGitHub "month 2024-13-01 rolls over" = none ∧
    (∀ s : String, findDate s.data = none → formatDateForGitHub s = none) := by
  refine ⟨by decide, by decide, by decide, by decide, by decide, by decide,
    by decide, ?_⟩
  intro s h
  unfold formatDateForGitHub
  split
  · rfl
  · rw [h]

/-- Witness for C1's universally quantified conjunct at a concrete
dateless input. -/
theorem formatDateForGitHub_spec_witness :
    formatDateForGitHub "no date here" = none :=
  formatDateForGitHub_spec.2.2.2.2.2.2.2 "no date here" (by decide)

theorem interpretEscapes_cons_ne {c : Char} {cs : List Char}
    (hc : c ≠ '\\') :
    interpretEscapes (c :: cs) = c :: interpretEscapes cs := by
  rw [interpretEscapes.eq_def]
  dsimp only
  rw [if_neg hc]

/-- C2: for every Markdown text and field name, a matched row whose raw
value cell is exactly `"N/A"`, exactly `"SELECT"`, or empty after
trimming yields the sentinel `"Not Specified"`; and when no row of the
table matches the field name, extraction yields `"Not Found"`. -/
theorem extractMarkdownField_sentinels (markdown fieldName : String) :
    (∀ cell, findFieldCell markdown fieldName = some cell →
      (String.mk cell = "N/A" ∨ String.mk cell = "SELECT" ∨
        jsTrim cell = []) →
      extractMarkdownField markdown fieldName = "Not Specified") ∧
    (findFieldCell markdown fieldName = none →
      extractMarkdownField markdown fieldName = "Not Found") := by
  constructor
  · intro cell hcell hval
    unfold extractMarkdownField
    rw [hcell]
    have hcond : jsTrim cell = "SELECT".data ∨ jsTrim cell = [] ∨
        jsTrim cell = "N/A".data := by
      rcases hval with h | h | h
      · right; right
        have hc : cell = "N/A".data := congrArg String.data h
        rw [hc]; decide
      · left
        have hc : cell = "SELECT".data := congrArg String.data h
        rw [hc]; decide
      · right; left; exact h
    exact if_pos hcond
  · intro h
    unfold extractMarkdownField
    rw [h]

/-- Witness for C2 at concrete inputs: an `N/A` cell, a blank cell, and
an absent field name. -/
theorem extractMarkdownField_sentinels_witness :
    extractMarkdownField "| **Priority** |N/A|" "Priority"
      = "Not Specified" ∧
    extractMarkdownField "| **Priority** |   |" "Priority"
      = "Not Specified" ∧
    extractMarkdownField "| **Priority** | P1 |" "Severity"
      = "Not Found" :=
  ⟨(extractMarkdownField_sentinels "| **Priority** |N/A|" "Priority").1
      "N/A".data (by decide) (Or.inl (by decide)),
   (extractMarkdownField_sentinels "| **Priority** |   |" "Priority").1
      "   ".data (by decide) (Or.inr (Or.inr (by decide))),
   (extractMarkdownField_sentinels "| **Priority** | P1 |" "Severity").2
      (by decide)⟩

/-- C8: the field-name escaping denotes the literal name (un-escaping
the escaped text is the identity), so a field name containing
pattern-special punctuation matches only rows carrying that punctuation
literally: `"Customer(s) Impacted"` matches its own row, but not a row
labelled `"Customers Impacted"` — which the raw unescaped pattern, with
`(s)` read as a group, would have matched. -/
theorem escapeRegExp_literal_match :
    (∀ s : List Char, interpretEscapes (escapeRegExp s) = s) ∧
    extractMarkdownField "| **Customer(s) Impacted** | Acme |"
      "Customer(s) Impacted" = "Acme" ∧
    extractMarkdownField "| **Customers Impacted** | Acme |"
      "Customer(s) Impacted" = "Not Found" ∧
    extractMarkdownField "| **Affected system(s)** | Payments |"
      "Affected system(s)" = "Payments" := by
  refine ⟨?_, by decide, by decide, by decide⟩
  intro s
  induction s with
  | nil => rfl
  | cons c cs ih =>
    by_cases h : isRegexSpecial c = true
    · simp only [escapeRegExp, if_pos h]
      show c :: interpretEscapes (escapeRegExp cs) = c :: cs
      rw [ih]
    · simp only [escapeRegExp, if_neg h]
      have hc : c ≠ '\\' := by
        intro hq
        rw [hq] at h
        exact h (by decide)
      rw [interpretEscapes_cons_ne hc, ih]

theorem matchDocAt_sound {l cid : List Char} (h : matchDocAt l = some cid) :
    ∃ post, l = docsNeedle ++ (cid ++ post) ∧ cid ≠ [] ∧
      cid.all isDocIdChar = true := by
  unfold matchDocAt at h
  cases hd : dropLit docsNeedle l with
  | none => rw [hd] at h; exact absurd h (by simp)
  | some rest =>
    rw [hd] at h
    dsimp only at h
    split at h
    · exact absurd h (by simp)
    · rename_i hne
      injection h with hv
      refine ⟨rest.dropWhile isDocIdChar, ?_, ?_, ?_⟩
      · rw [dropLit_eq_append hd, ← hv, List.takeWhile_append_dropWhile]
      · rw [← hv]
        intro hq
        rw [hq] at hne
        exact hne rfl
      · rw [← hv]
        exact List.all_takeWhile

theorem findDocId_sound : ∀ {l cid : List Char}, findDocId l = some cid →
    ∃ pre post, l = pre ++ (docsNeedle ++ (cid ++ post)) ∧ cid ≠ [] ∧
      cid.all isDocIdChar = true := by
  intro l
  induction l with
  | nil => intro cid h; simp [findDocId] at h
  | cons c cs ih =>
    intro cid h
    unfold findDocId at h
    cases hm : matchDocAt (c :: cs) with
    | some w =>
      rw [hm] at h
      injection h with hv
      subst hv
      obtain ⟨post, heq, hne, hall⟩ := matchDocAt_sound hm
      exact ⟨[], post, by simpa using heq, hne, hall⟩
    | none =>
      rw [hm] at h
      obtain ⟨pre, post, heq, hne, hall⟩ := ih h
      exact ⟨c :: pre, post, by rw [List.cons_append, ← heq], hne, hall⟩

/-- C4: when the issue description contains no substring matching the
Google-Doc URL pattern (the literal `docs.google.com/document/d/`
followed by at least one id character), the run performs no document
fetch and terminates with only the non-fatal warning — no `setFailed`
effect is emitted. -/
theorem syncIncident_noDocLink (p : RawPayload) (issue : RawIssue)
    (fetchResult : String → Except String String)
    (createResult : Except String String) (commentResult : Except String Unit)
    (hIssue : p.issue = some issue)
    (hNo : ¬ ∃ pre cid post, (issue.body.getD "").data
        = pre ++ (docsNeedle ++ (cid ++ post)) ∧ cid ≠ [] ∧
        cid.all isDocIdChar = true) :
    syncIncidentRun p fetchResult createResult commentResult
      = [.warning "No Google Doc link found in description. Exiting."] ∧
    (∀ d, MEffect.fetchDoc d
      ∉ syncIncidentRun p fetchResult createResult commentResult) ∧
    (∀ m, MEffect.setFailed m
      ∉ syncIncidentRun p fetchResult createResult commentResult) := by
  have hfind : findDocId (parseIssueData p issue).description.data = none := by
    cases hf : findDocId (parseIssueData p issue).description.data with
    | none => rfl
    | some cid =>
      obtain ⟨pre, post, heq, hne, hall⟩ := findDocId_sound hf
      exact absurd ⟨pre, cid, post, heq, hne, hall⟩ hNo
  have hrun : syncIncidentRun p fetchResult createResult commentResult
      = [.warning "No Google Doc link found in description. Exiting."] := by
    unfold syncIncidentRun
    rw [hIssue]
    dsimp only
    rw [hfind]
  refine ⟨hrun, ?_, ?_⟩ <;> intro x <;> rw [hrun] <;> simp

/-- Witness for C4 at a concrete payload whose description contains no
Google-Doc URL. -/
theorem syncIncident_noDocLink_witness :
    syncIncidentRun
      ⟨some ⟨42, "Incident", some "no link here", some "alice", "u", some [],
        "open", "c1", "u1", none, none, some []⟩, "acme/repo"⟩
      (fun _ => .ok "") (.ok "url") (.ok ())
      = [.warning "No Google Doc link found in description. Exiting."] :=
  (syncIncident_noDocLink _ _ _ _ _ rfl (by
    rintro ⟨pre, cid, post, heq, hne, hall⟩
    have hlen := congrArg List.length heq
    have h12 : (((some "no link here" : Option String).getD "").data).length
        = 12 := by decide
    have h27 : docsNeedle.length = 27 := by decide
    rw [h12] at hlen
    simp only [List.length_append, h27] at hlen
    omega)).1

theorem matchDateAt_sound {l v : List Char} (h : matchDateAt l = some v) :
    ∃ rest, l = v ++ rest ∧ v.length = 10 ∧
      isStrictDateFormat (String.mk v) = true := by
  unfold matchDateAt at h
  split at h
  · rename_i y1 y2 y3 y4 m1 m2 d1 d2 rest
    split at h
    · rename_i hdig
      injection h with hv
      simp only [Bool.and_eq_true] at hdig
      refine ⟨rest, ?_, ?_, ?_⟩
      · rw [← hv]; rfl
      · rw [← hv]; rfl
      · rw [← hv]
        simp only [isStrictDateFormat, Bool.and_eq_true]
        refine ⟨⟨⟨⟨⟨⟨⟨⟨⟨?_, ?_⟩, ?_⟩, ?_⟩, ?_⟩, ?_⟩, ?_⟩, ?_⟩, ?_⟩, ?_⟩ <;>
          first
            | exact hdig.1.1.1.1.1.1.1
            | exact hdig.1.1.1.1.1.1.2
            | exact hdig.1.1.1.1.1.2
            | exact hdig.1.1.1.1.2
            | exact hdig.1.1.1.2
            | exact hdig.1.1.2
            | exact hdig.1.2
            | exact hdig.2
            | decide
    · exact absurd h (by simp)
  · exact absurd h (by simp)

theorem findDate_first : ∀ {l v : List Char}, findDate l = some v →
    ∃ pre post, l = pre ++ (v ++ post) ∧ matchDateAt (v ++ post) = some v ∧
      ∀ p q, l = p ++ q → p.length < pre.length → matchDateAt q = none := by
  intro l
  induction l with
  | nil => intro v h; simp [findDate] at h
  | cons c cs ih =>
    intro v h
    unfold findDate at h
    cases hm : matchDateAt (c :: cs) with
    | some w =>
      rw [hm] at h
      injection h with hv
      subst hv
      obtain ⟨rest, heq, _, _⟩ := matchDateAt_sound hm
      refine ⟨[], rest, by simpa using heq, by rw [← heq]; exact hm, ?_⟩
      intro p q _ hlt
      simp at hlt
    | none =>
      rw [hm] at h
      obtain ⟨pre, post, heq, hmatch, hmin⟩ := ih h
      refine ⟨c :: pre, post, by rw [List.cons_append, ← heq], hmatch, ?_⟩
      intro p q hpq hlt
      cases p with
      | nil =>
        simp only [List.nil_append] at hpq
        rw [← hpq]
        exact hm
      | cons a p' =>
        rw [List.cons_append] at hpq
        injection hpq with hac hcs
        simp only [List.length_cons, Nat.succ_lt_succ_iff] at hlt
        exact hmin p' q hcs hlt

/-- C10: any non-`none` result of `formatDateForGitHub` is a
ten-character string of the exact shape `\d{4}-\d{2}-\d{2}` occurring
verbatim in the input, at the first position where the date pattern
matches; consequently it always passes the strict `YYYY-MM-DD`
re-validation of `updateProjectDateField` and is never skipped as
invalid before the network call. -/
theorem formatDateForGitHub_shape (s v : String)
    (h : formatDateForGitHub s = some v) :
    v.length = 10 ∧ isStrictDateFormat v = true ∧
    (∀ fid, updateProjectDateField (some fid) (some v)
      = some (PEffect.dateMutation fid v)) ∧
    ∃ pre post, s.data = pre ++ (v.data ++ post) ∧
      matchDateAt (v.data ++ post) = some v.data ∧
      ∀ p q, s.data = p ++ q → p.length < pre.length → matchDateAt q = none := by
  unfold formatDateForGitHub at h
  split at h
  · exact absurd h (by simp)
  · cases hf : findDate s.data with
    | none => rw [hf] at h; exact absurd h (by simp)
    | some ds =>
      rw [hf] at h
      dsimp only at h
      split at h
      · injection h with hv
        have hdata : v.data = ds := by rw [← hv]
        obtain ⟨pre, post, heq, hmatch, hmin⟩ := findDate_first hf
        obtain ⟨rest, _, hlen, hfmt⟩ := matchDateAt_sound hmatch
        have hv10 : v.length = 10 := by
          show v.data.length = 10
          rw [hdata]; exact hlen
        have hstrict : isStrictDateFormat v = true := by
          rw [← hv]; exact hfmt
        refine ⟨hv10, hstrict, ?_, pre, post, ?_, ?_, hmin⟩
        · intro fid
          have hne : v ≠ "" := by
            intro hq
            rw [hq] at hv10
            exact absurd hv10 (by decide)
          simp [updateProjectDateField, hne, hstrict]
        · rw [hdata]; exact heq
        · rw [hdata]; exact hmatch
      · exact absurd h (by simp)

/-- Witness for C10 at the concrete input `"2024-03-15"`. -/
theorem formatDateForGitHub_shape_witness :
    ("2024-03-15" : String).length = 10 ∧
    isStrictDateFormat "2024-03-15" = true ∧
    (∀ fid, updateProjectDateField (some fid) (some "2024-03-15")
      = some (PEffect.dateMutation fid "2024-03-15")) ∧
    ∃ pre post, ("2024-03-15" : String).data
        = pre ++ (("2024-03-15" : String).data ++ post) ∧
      matchDateAt (("2024-03-15" : String).data ++ post)
        = some ("2024-03-15" : String).data ∧
      ∀ p q, ("2024-03-15" : String).data = p ++ q →
        p.length < pre.length → matchDateAt q = none :=
  formatDateForGitHub_shape "2024-03-15" "2024-03-15" (by decide)

/-! ## Renderer lemmas for the token-segment invariant -/

theorem flattenSegs_cons (s : Seg) (rest : List Seg) :
    flattenSegs (s :: rest) = s.flat ++ flattenSegs rest := by
  simp [flattenSegs]

theorem mkTok_inj {u w : List Char} (h : mkTok u = mkTok w) : u = w := by
  simp only [mkTok, List.cons.injEq, true_and] at h
  exact List.append_cancel_right h

theorem braceFree_cons {c : Char} {cs : List Char}
    (h : braceFree (c :: cs) = true) :
    (c ≠ '\x7b' ∧ c ≠ '\x7d') ∧ braceFree cs = true := by
  simp only [braceFree, List.all_cons, Bool.and_eq_true, decide_eq_true_eq,
    Bool.and_eq_true] at h
  simpa [braceFree, List.all_eq_true, decide_eq_true_eq] using h

theorem braceFree_mem {l : List Char} (h : braceFree l = true) :
    ∀ c ∈ l, c ≠ '\x7b' ∧ c ≠ '\x7d' := by
  intro c hc
  simp only [braceFree, List.all_eq_true, Bool.and_eq_true,
    decide_eq_true_eq] at h
  exact h c hc

theorem dropLit_token_ne : ∀ {w u : List Char}, braceFree w = true →
    braceFree u = true → u ≠ w → ∀ r,
    dropLit (w ++ ['\x7d', '\x7d']) ((u ++ ['\x7d', '\x7d']) ++ r) = none := by
  intro w
  induction w with
  | nil =>
    intro u _ hu hne r
    cases u with
    | nil => exact absurd rfl hne
    | cons c u' =>
      have hc := (braceFree_cons hu).1.2
      simp [dropLit, hc]
  | cons a w' ih =>
    intro u hw hu hne r
    have ha := braceFree_cons hw
    cases u with
    | nil =>
      have hs : ('\x7d' : Char) ≠ a := Ne.symm ha.1.2
      simp [dropLit, hs]
    | cons c u' =>
      have hc := braceFree_cons hu
      by_cases hca : c = a
      · subst hca
        simp only [List.cons_append, dropLit, if_pos rfl]
        exact ih ha.2 hc.2 (fun hq => hne (by rw [hq])) r
      · simp [dropLit, hca]

theorem occursB_mem {pat : List Char} : ∀ {l : List Char},
    occursB pat l = true → ∀ c ∈ pat, c ∈ l := by
  intro l
  induction l with
  | nil =>
    intro h c hc
    simp only [occursB, List.isEmpty_iff] at h
    subst h
    simp at hc
  | cons x xs ih =>
    intro h c hc
    simp only [occursB, Bool.or_eq_true] at h
    rcases h with h | h
    · rw [Option.isSome_iff_exists] at h
      obtain ⟨r, hr⟩ := h
      rw [dropLit_eq_append hr]
      exact List.mem_append_left _ hc
    · exact List.mem_cons_of_mem _ (ih h c hc)

theorem replaceAll_token_pass (w v : List Char) (hw : braceFree w = true)
    (hwne : w ≠ []) :
    ∀ segs : List Seg, (∀ s ∈ segs, segWf s) →
      replaceAllLit '\x7b' ('\x7b' :: (w ++ ['\x7d', '\x7d'])) v
          (flattenSegs segs)
        = flattenSegs (segs.map (substSeg w v)) := by
  intro segs
  induction segs with
  | nil => intro _; rfl
  | cons seg rest ih =>
    intro hwf
    have hrest : ∀ s ∈ rest, segWf s :=
      fun s hs => hwf s (List.mem_cons_of_mem _ hs)
    have ihr := ih hrest
    cases seg with
    | text s =>
      have hs : braceFree s = true := hwf (.text s) (by simp)
      rw [flattenSegs_cons]
      show replaceAllLit _ _ _ (s ++ flattenSegs rest) = _
      rw [replaceAllLit_skip (fun c hc => (braceFree_mem hs c hc).1) _, ihr]
      rw [List.map_cons, flattenSegs_cons]
      rfl
    | tok u =>
      have hu : braceFree u = true ∧ u ≠ [] := hwf (.tok u) (by simp)
      by_cases hueq : u = w
      · subst hueq
        rw [flattenSegs_cons]
        show replaceAllLit '\x7b' ('\x7b' :: (u ++ ['\x7d', '\x7d'])) v
            ('\x7b' :: (('\x7b' :: (u ++ ['\x7d', '\x7d'])) ++ flattenSegs rest))
          = _
        rw [replaceAllLit_match v rfl (dropLit_self_append _ _), ihr]
        rw [List.map_cons, flattenSegs_cons]
        have : substSeg u v (Seg.tok u) = Seg.text v := by
          simp [substSeg]
        rw [this]
        rfl
      · rw [flattenSegs_cons]
        have h3 : ∀ r0 : List Char,
            dropLit ('\x7b' :: ('\x7b' :: (w ++ ['\x7d', '\x7d'])))
              ('\x7d' :: r0) = none := by
          intro r0
          simp [dropLit]
        have hA : dropLit ('\x7b' :: ('\x7b' :: (w ++ ['\x7d', '\x7d'])))
            ('\x7b' :: ('\x7b' ::
              ((u ++ ['\x7d', '\x7d']) ++ flattenSegs rest))) = none := by
          simp only [dropLit, if_pos rfl]
          exact dropLit_token_ne hw hu.1 hueq _
        have hB : dropLit ('\x7b' :: ('\x7b' :: (w ++ ['\x7d', '\x7d'])))
            ('\x7b' :: ((u ++ ['\x7d', '\x7d']) ++ flattenSegs rest)) = none := by
          cases hus : u with
          | nil => exact absurd hus hu.2
          | cons c0 u' =>
            have hc0 : c0 ≠ '\x7b' := by
              have := braceFree_mem hu.1 c0 (by rw [hus]; simp)
              exact this.1
            simp [dropLit, hc0]
        have hstep : replaceAllLit '\x7b' ('\x7b' :: (w ++ ['\x7d', '\x7d'])) v
            (['\x7d', '\x7d'] ++ flattenSegs rest)
            = '\x7d' :: '\x7d' :: flattenSegs (List.map (substSeg w v) rest) := by
          show replaceAllLit '\x7b' ('\x7b' :: (w ++ ['\x7d', '\x7d'])) v
            ('\x7d' :: ('\x7d' :: flattenSegs rest)) = _
          rw [replaceAllLit_nomatch v (h3 _), replaceAllLit_nomatch v (h3 _), ihr]
        show replaceAllLit '\x7b' ('\x7b' :: (w ++ ['\x7d', '\x7d'])) v
            ('\x7b' :: ('\x7b' :: ((u ++ ['\x7d', '\x7d']) ++ flattenSegs rest)))
          = _
        rw [replaceAllLit_nomatch v hA, replaceAllLit_nomatch v hB]
        rw [List.append_assoc]
        rw [replaceAllLit_skip (fun c hc => (braceFree_mem hu.1 c hc).1)
          (['\x7d', '\x7d'] ++ flattenSegs rest), hstep]
        rw [List.map_cons, flattenSegs_cons]
        have hsub : substSeg w v (Seg.tok u) = Seg.tok u := by
          simp [substSeg, hueq]
        rw [hsub]
        simp [Seg.flat, mkTok, List.append_assoc]

theorem renderTemplate_nooccur :
    ∀ (repl : List (List Char × List Char)) (template : List Char),
      (∀ kv ∈ repl, occursB kv.1 template = false) →
      renderTemplate repl template = template := by
  intro repl
  induction repl with
  | nil => intro t _; rfl
  | cons kv repl' ih =>
    intro t h
    have h1 : replacePass t kv = t := by
      cases hk : kv.1 with
      | nil => simp [replacePass, hk]
      | cons p0 ps =>
        have hocc := h kv (by simp)
        rw [hk] at hocc
        simp only [replacePass, hk]
        exact replaceAllLit_of_not_occurs hocc
    show renderTemplate repl' (replacePass t kv) = t
    rw [h1]
    exact ih t (fun kv' hkv' => h kv' (List.mem_cons_of_mem _ hkv'))

theorem render_braceFree :
    ∀ (repl : List (List Char × List Char)) (segs : List Seg),
      (∀ kv ∈ repl,
        (∃ w, kv.1 = mkTok w ∧ braceFree w = true ∧ w ≠ []) ∧
        braceFree kv.2 = true) →
      (∀ s ∈ segs, segWf s) →
      (∀ u, Seg.tok u ∈ segs → ∃ kv ∈ repl, kv.1 = mkTok u) →
      braceFree (renderTemplate repl (flattenSegs segs)) = true := by
  intro repl
  induction repl with
  | nil =>
    intro segs _ hwf htoks
    show braceFree (flattenSegs segs) = true
    induction segs with
    | nil => rfl
    | cons seg rest ihs =>
      rw [flattenSegs_cons]
      have hrest := ihs (fun s hs => hwf s (List.mem_cons_of_mem _ hs))
        (fun u hu => htoks u (List.mem_cons_of_mem _ hu))
      cases seg with
      | text s =>
        have hs : braceFree s = true := hwf (.text s) (by simp)
        simp only [braceFree, Seg.flat, List.all_append, Bool.and_eq_true]
        exact ⟨hs, hrest⟩
      | tok u =>
        obtain ⟨kv, hkv, _⟩ := htoks u (by simp)
        simp at hkv
  | cons kv repl' ih =>
    intro segs hok hwf htoks
    obtain ⟨⟨w, hk1, hw, hwne⟩, hv⟩ := hok kv (by simp)
    obtain ⟨k1, v1⟩ := kv
    simp only at hk1 hv
    subst hk1
    have hpass : replacePass (flattenSegs segs) (mkTok w, v1)
        = flattenSegs (segs.map (substSeg w v1)) := by
      show replaceAllLit '\x7b' ('\x7b' :: (w ++ ['\x7d', '\x7d'])) v1
          (flattenSegs segs) = _
      exact replaceAll_token_pass w v1 hw hwne segs hwf
    show braceFree (renderTemplate repl'
      (replacePass (flattenSegs segs) (mkTok w, v1))) = true
    rw [hpass]
    apply ih
    · exact fun kv' hkv' => hok kv' (List.mem_cons_of_mem _ hkv')
    · intro s hs
      rw [List.mem_map] at hs
      obtain ⟨s0, hs0, hsub⟩ := hs
      have hs0wf := hwf s0 hs0
      cases s0 with
      | text t => rw [← hsub]; exact hs0wf
      | tok u =>
        by_cases hu : u = w
        · subst hu
          have : substSeg u v1 (Seg.tok u) = Seg.text v1 := by simp [substSeg]
          rw [← hsub, this]
          exact hv
        · have : substSeg w v1 (Seg.tok u) = Seg.tok u := by
            simp [substSeg, hu]
          rw [← hsub, this]
          exact hs0wf
    · intro u hu
      rw [List.mem_map] at hu
      obtain ⟨s0, hs0, hsub⟩ := hu
      cases s0 with
      | text t => simp [substSeg] at hsub
      | tok u0 =>
        by_cases hu0 : u0 = w
        · subst hu0
          have : substSeg u0 v1 (Seg.tok u0) = Seg.text v1 := by simp [substSeg]
          rw [this] at hsub
          exact absurd hsub (by simp)
        · have : substSeg w v1 (Seg.tok u0) = Seg.tok u0 := by
            simp [substSeg, hu0]
          rw [this] at hsub
          have hu0u : u0 = u := by
            injection hsub
          subst hu0u
          obtain ⟨kv', hkv', hkv1⟩ := htoks u0 hs0
          rcases List.mem_cons.mp hkv' with hkv' | hkv'
          · rw [hkv'] at hkv1
            simp only at hkv1
            exact absurd (mkTok_inj hkv1) (Ne.symm hu0)
          · exact ⟨kv', hkv', hkv1⟩

/-- C5: template rendering is the identity on any template containing no
recognized placeholder token; on a template decomposed into brace-free
literal text and placeholder tokens all drawn from the replacement map
(whose values are brace-free), no recognized token survives in the
output; and a bracketed token outside the enumerated placeholder set is
left as literal text, never an error. -/
theorem renderTemplate_spec :
    (∀ (repl : List (List Char × List Char)) (template : List Char),
      (∀ kv ∈ repl, occursB kv.1 template = false) →
      renderTemplate repl template = template) ∧
    (∀ (repl : List (List Char × List Char)) (segs : List Seg),
      (∀ kv ∈ repl,
        (∃ w, kv.1 = mkTok w ∧ braceFree w = true ∧ w ≠ []) ∧
        braceFree kv.2 = true) →
      (∀ s ∈ segs, segWf s) →
      (∀ u, Seg.tok u ∈ segs → ∃ kv ∈ repl, kv.1 = mkTok u) →
      ∀ kv ∈ repl,
        occursB kv.1 (renderTemplate repl (flattenSegs segs)) = false) ∧
    renderTemplate [("\x7b\x7bPRIORITY\x7d\x7d".data, "P1".data)]
        "\x7b\x7bFOO\x7d\x7d and \x7b\x7bPRIORITY\x7d\x7d".data
      = "\x7b\x7bFOO\x7d\x7d and P1".data := by
  refine ⟨renderTemplate_nooccur, ?_, by decide⟩
  intro repl segs hok hwf htoks kv hkv
  have hbf := render_braceFree repl segs hok hwf htoks
  cases hocc : occursB kv.1 (renderTemplate repl (flattenSegs segs)) with
  | false => rfl
  | true =>
    obtain ⟨⟨w, hk1, _, _⟩, _⟩ := hok kv hkv
    have hmem := occursB_mem hocc '\x7b' (by rw [hk1]; simp [mkTok])
    exact absurd rfl (braceFree_mem hbf '\x7b' hmem).1

theorem tokNameQ_sound {k w : List Char} (h : tokName? k = some w) :
    k = mkTok w ∧ braceFree w = true ∧ w ≠ [] := by
  unfold tokName? at h
  split at h
  · rename_i rest
    dsimp only at h
    split at h
    · rename_i hcond
      injection h with hw
      simp only [Bool.and_eq_true, decide_eq_true_eq, Bool.not_eq_true'] at hcond
      obtain ⟨⟨hrest, hbf⟩, hne⟩ := hcond
      rw [hw] at hrest hbf hne
      refine ⟨?_, hbf, ?_⟩
      · rw [mkTok, ← hrest]
      · intro hq
        rw [hq] at hne
        exact absurd hne (by decide)
    · exact absurd h (by simp)
  · exact absurd h (by simp)

theorem checkRepl_sound {repl : List (List Char × List Char)}
    (h : checkRepl repl = true) :
    ∀ kv ∈ repl,
      (∃ w, kv.1 = mkTok w ∧ braceFree w = true ∧ w ≠ []) ∧
      braceFree kv.2 = true := by
  intro kv hkv
  rw [checkRepl, List.all_eq_true] at h
  have hk := h kv hkv
  simp only [Bool.and_eq_true, Option.isSome_iff_exists] at hk
  obtain ⟨⟨w, hw⟩, hv⟩ := hk
  exact ⟨⟨w, tokNameQ_sound hw⟩, hv⟩

theorem segsWf_of_check {segs : List Seg} (h : segs.all segWfB = true) :
    ∀ s ∈ segs, segWf s := by
  intro seg hs
  rw [List.all_eq_true] at h
  have hseg := h seg hs
  cases seg with
  | text t => exact hseg
  | tok w =>
    simp only [segWfB, Bool.and_eq_true, Bool.not_eq_true'] at hseg
    refine ⟨hseg.1, ?_⟩
    intro hq
    have := hseg.2
    rw [hq] at this
    exact absurd this (by decide)

theorem checkSegs_sound {repl : List (List Char × List Char)}
    {segs : List Seg} (h : checkSegs repl segs = true) :
    ∀ u, Seg.tok u ∈ segs → ∃ kv ∈ repl, kv.1 = mkTok u := by
  intro u hu
  rw [checkSegs, List.all_eq_true] at h
  have ht := h (Seg.tok u) hu
  simp only [List.any_eq_true, decide_eq_true_eq] at ht
  exact ht

/-- Witness for C5: with the program's replacement map at a concrete
issue and details, a token-free template is unchanged, and on a concrete
template whose tokens are all in the map, no recognized token survives
rendering. -/
theorem renderTemplate_spec_witness :
    renderTemplate (replacements dataPlain detSeq) "plain text".data
      = "plain text".data ∧
    (∀ kv ∈ replacements dataPlain detSeq,
      occursB kv.1 (renderTemplate (replacements dataPlain detSeq)
        (flattenSegs segsC5)) = false) := by
  constructor
  · exact renderTemplate_spec.1 _ _ (by decide)
  · exact renderTemplate_spec.2.1 _ _ (checkRepl_sound (by decide))
      (segsWf_of_check (by decide)) (checkSegs_sound (by decide))

/-- C9: with the program's replacement map, substitution is sequential
over the already-rewritten body, in the map's enumeration order: the
`PRIORITY` token contained in the issue description — the value
substituted for the earlier `DESCRIPTION` placeholder — is itself
replaced by the later `PRIORITY` iteration, so rendering differs from a
simultaneous substitution of the original template's tokens. -/
theorem renderTemplate_sequential :
    renderTemplate (replacements dataSeq detSeq)
        (flattenSegs [Seg.tok "DESCRIPTION".data])
      = "See P1 for details".data ∧
    simultaneousRender (replacements dataSeq detSeq)
        [Seg.tok "DESCRIPTION".data]
      = "See \x7b\x7bPRIORITY\x7d\x7d for details".data ∧
    renderTemplate (replacements dataSeq detSeq)
        (flattenSegs [Seg.tok "DESCRIPTION".data])
      ≠ simultaneousRender (replacements dataSeq detSeq)
          [Seg.tok "DESCRIPTION".data] :=
  ⟨by decide, by decide, by decide⟩

theorem syncIncidentV2Run_shape (p : RawPayload) (issue : RawIssue)
    (o r t : String) (pn : Option String) (u nid md : String) (d : List Char)
    (fetchResult : String → Except String String)
    (projectDataResult : Except String ProjectV2Data)
    (addItemResult : Except String String)
    (commentResult : Except String Unit)
    (hIssue : p.issue = some issue)
    (hfind : findDocId (parseIssueDataV2 p issue).description.data = some d)
    (hfetch : fetchResult (String.mk d) = Except.ok md) :
    syncIncidentV2Run p ⟨some o, some r, some t, pn⟩ fetchResult
        (.ok (u, nid)) projectDataResult addItemResult commentResult
      = [PEffect.notice
            ("Security Incident Report Found: https://docs.google.com/document/d/"
              ++ String.mk d),
          PEffect.fetchDoc (String.mk d),
          PEffect.createIssue (mirrorIssueRequest o r (parseIssueDataV2 p issue)
            (String.mk (renderTemplate
              (replacements (parseIssueDataV2 p issue)
                (mkIncidentDetailsV2 (parseIssueDataV2 p issue)
                  ("https://docs.google.com/document/d/" ++ String.mk d) md))
              incidentMirrorTemplate.data))),
          PEffect.notice ("Mirrored issue created: " ++ u)]
        ++ v2TailEffects pn projectDataResult addItemResult commentResult
            (mkIncidentDetailsV2 (parseIssueDataV2 p issue)
              ("https://docs.google.com/document/d/" ++ String.mk d) md) u := by
  unfold syncIncidentV2Run
  rw [hIssue]
  dsimp only
  rw [hfind]
  dsimp only
  rw [hfetch]
  rfl

theorem projectSyncMutations_shape (fields : List (String × String))
    (det : IncidentDetails) :
    ∀ e ∈ projectSyncMutations fields det,
      (∃ fid v, e = PEffect.fieldMutation fid v) ∨
      ∃ fid v, e = PEffect.dateMutation fid v := by
  intro e he
  rw [projectSyncMutations, List.mem_append] at he
  rcases he with he | he <;> rw [List.mem_filterMap] at he <;>
    obtain ⟨f, _, hf⟩ := he
  · unfold updateProjectTextField at hf
    split at hf
    · split at hf
      · exact Or.inl ⟨_, _, (Option.some.inj hf).symm⟩
      · exact absurd hf (by simp)
    · exact absurd hf (by simp)
  · unfold updateProjectDateField at hf
    split at hf
    · exact absurd hf (by simp)
    · split at hf
      · exact absurd hf (by simp)
      · split at hf
        · exact absurd hf (by simp)
        · split at hf
          · exact Or.inr ⟨_, _, (Option.some.inj hf).symm⟩
          · exact absurd hf (by simp)

theorem v2Tail_comment_count (n : String) (pd : Except String ProjectV2Data)
    (add : Except String String) (cr : Except String Unit)
    (det : IncidentDetails) (url : String) :
    (v2TailEffects (some n) pd add cr det url).countP isCreateComment = 1 := by
  have hmut : ∀ fields,
      (projectSyncMutations fields det).countP isCreateComment = 0 := by
    intro fields
    rw [List.countP_eq_zero]
    intro e he
    rcases projectSyncMutations_shape fields det e he with
      ⟨fid, v, rfl⟩ | ⟨fid, v, rfl⟩ <;> simp [isCreateComment]
  unfold v2TailEffects
  dsimp only
  cases pd with
  | error e =>
    cases cr <;> simp [List.countP_append, List.countP_cons, isCreateComment]
  | ok pdd =>
    cases add with
    | error e =>
      cases cr <;> simp [List.countP_append, List.countP_cons, isCreateComment]
    | ok item =>
      cases cr <;>
        simp [List.countP_append, List.countP_cons, isCreateComment, hmut]

theorem updateText_ne_setFailed {fid : Option String} {v m : String} :
    updateProjectTextField fid v ≠ some (PEffect.setFailed m) := by
  unfold updateProjectTextField
  split
  · split <;> simp
  · simp

theorem updateDate_ne_setFailed {fid : Option String} {v : Option String}
    {m : String} :
    updateProjectDateField fid v ≠ some (PEffect.setFailed m) := by
  unfold updateProjectDateField
  split
  · simp
  · split
    · simp
    · split
      · simp
      · split <;> simp

theorem v2Tail_no_setFailed (n : String) (pd : Except String ProjectV2Data)
    (add : Except String String) (det : IncidentDetails) (url : String) :
    ∀ m, PEffect.setFailed m ∉ v2TailEffects (some n) pd add (.ok ()) det url := by
  intro m hmem
  unfold v2TailEffects at hmem
  dsimp only at hmem
  cases pd with
  | error e => simp at hmem
  | ok pdd =>
    cases add with
    | error e => simp at hmem
    | ok item =>
      simp [projectSyncMutations, updateText_ne_setFailed,
        updateDate_ne_setFailed] at hmem

theorem v2Tail_syncWarning (n e : String) (add : Except String String)
    (cr : Except String Unit) (det : IncidentDetails) (url : String) :
    PEffect.syncWarning ("Issue created, but failed to sync to Project: " ++ e)
      ∈ v2TailEffects (some n) (.error e) add cr det url := by
  unfold v2TailEffects
  dsimp only
  cases cr <;> simp

/-- C3 (amended): once the mirrored issue is created and the
`PROJECT_NUMBER` configuration is present, exactly one back-link comment
request is issued on the original issue, regardless of whether the
Project-Sync `try` block succeeds or fails: a failing schema fetch is
caught and logged as the non-fatal sync warning, and when the comment
call itself succeeds the run reports success (no `setFailed`).  As
originally stated the claim fails on the code when `PROJECT_NUMBER` is
missing — the throw at lines 380-382 escapes the sync catch — see the
counterexample. -/
theorem syncV2_comment_once (p : RawPayload) (issue : RawIssue)
    (o r t n u nid md : String) (d : List Char)
    (fetchResult : String → Except String String)
    (projectDataResult : Except String ProjectV2Data)
    (addItemResult : Except String String)
    (commentResult : Except String Unit)
    (hIssue : p.issue = some issue)
    (hfind : findDocId (parseIssueDataV2 p issue).description.data = some d)
    (hfetch : fetchResult (String.mk d) = Except.ok md) :
    (syncIncidentV2Run p ⟨some o, some r, some t, some n⟩ fetchResult
        (.ok (u, nid)) projectDataResult addItemResult
        commentResult).countP isCreateComment = 1 ∧
    (∀ e, projectDataResult = Except.error e →
      PEffect.syncWarning
          ("Issue created, but failed to sync to Project: " ++ e)
        ∈ syncIncidentV2Run p ⟨some o, some r, some t, some n⟩ fetchResult
            (.ok (u, nid)) projectDataResult addItemResult commentResult) ∧
    (commentResult = Except.ok () →
      ∀ m, PEffect.setFailed m
        ∉ syncIncidentV2Run p ⟨some o, some r, some t, some n⟩ fetchResult
            (.ok (u, nid)) projectDataResult addItemResult commentResult) := by
  rw [syncIncidentV2Run_shape p issue o r t (some n) u nid md d fetchResult
    projectDataResult addItemResult commentResult hIssue hfind hfetch]
  refine ⟨?_, ?_, ?_⟩
  · rw [List.countP_append, v2Tail_comment_count]
    simp [List.countP_cons, isCreateComment]
  · intro e he
    subst he
    exact List.mem_append_right _ (v2Tail_syncWarning n e addItemResult
      commentResult _ u)
  · intro hc m hmem
    subst hc
    rcases List.mem_append.mp hmem with h | h
    · simp at h
    · exact v2Tail_no_setFailed n projectDataResult addItemResult _ u m h

/-- C3 counterexample: a concrete run in which the mirrored issue is
created but `PROJECT_NUMBER` is absent.  The missing-variable throw of
lines 380-382 escapes the sync catch: the run fails with `setFailed` and
no back-link comment is posted, refuting the claim that every run that
creates the mirror posts exactly one comment with at most a non-fatal
sync warning. -/
theorem syncV2_missingProjectNumber_counterexample :
    (syncIncidentV2Run payloadWithLink
        ⟨some "acme", some "central", some "tok", none⟩
        (fun _ => Except.ok docMarkdown) (.ok ("https://u", "NID"))
        (.ok ⟨"PID", []⟩) (.ok "ITEM") (.ok ())).countP isCreateIssue = 1 ∧
    (syncIncidentV2Run payloadWithLink
        ⟨some "acme", some "central", some "tok", none⟩
        (fun _ => Except.ok docMarkdown) (.ok ("https://u", "NID"))
        (.ok ⟨"PID", []⟩) (.ok "ITEM") (.ok ())).countP isCreateComment = 0 ∧
    PEffect.setFailed "Sync Failed: Missing PROJECT_NUMBER in environment variables."
      ∈ syncIncidentV2Run payloadWithLink
          ⟨some "acme", some "central", some "tok", none⟩
          (fun _ => Except.ok docMarkdown) (.ok ("https://u", "NID"))
          (.ok ⟨"PID", []⟩) (.ok "ITEM") (.ok ()) := by
  rw [syncIncidentV2Run_shape payloadWithLink issueWithLink "acme" "central"
    "tok" none "https://u" "NID" docMarkdown "ABC123".data _ _ _ _ rfl
    (by decide) rfl]
  refine ⟨?_, ?_, ?_⟩ <;>
    simp [v2TailEffects, List.countP_append, List.countP_cons,
      isCreateIssue, isCreateComment]

/-- Witness for C3's amended theorem at a concrete run whose sync phase
fails (the schema fetch throws). -/
theorem syncV2_comment_once_witness :
    (syncIncidentV2Run payloadWithLink
        ⟨some "acme", some "central", some "tok", some "7"⟩
        (fun _ => Except.ok docMarkdown) (.ok ("https://u", "NID"))
        (.error "boom") (.ok "ITEM") (.ok ())).countP isCreateComment = 1 ∧
    PEffect.syncWarning
        ("Issue created, but failed to sync to Project: " ++ "boom")
      ∈ syncIncidentV2Run payloadWithLink
          ⟨some "acme", some "central", some "tok", some "7"⟩
          (fun _ => Except.ok docMarkdown) (.ok ("https://u", "NID"))
          (.error "boom") (.ok "ITEM") (.ok ()) ∧
    (∀ m, PEffect.setFailed m
      ∉ syncIncidentV2Run payloadWithLink
          ⟨some "acme", some "central", some "tok", some "7"⟩
          (fun _ => Except.ok docMarkdown) (.ok ("https://u", "NID"))
          (.error "boom") (.ok "ITEM") (.ok ())) := by
  have h := syncV2_comment_once payloadWithLink issueWithLink "acme" "central"
    "tok" "7" "https://u" "NID" docMarkdown "ABC123".data
    (fun _ => Except.ok docMarkdown) (.error "boom") (.ok "ITEM") (.ok ())
    rfl (by decide) rfl
  exact ⟨h.1, h.2.1 "boom" rfl, h.2.2 rfl⟩

/-- C6: during Project Sync a text-field mutation is issued only for a
(fieldName, value) pair whose name maps to a field id in the fetched
schema and whose value is neither `"Not Found"`, nor `"Not Specified"`,
nor empty; a field name absent from the schema is skipped without
raising, and the run still reports success (no `setFailed`) whatever the
fetched schema contains. -/
theorem projectSync_mutation_guard :
    (∀ fields det fid v,
      PEffect.fieldMutation fid v ∈ projectSyncMutations fields det →
      ∃ name, (name, v) ∈ textFieldPairs det ∧
        getFieldId fields name = some fid ∧
        v ≠ "Not Found" ∧ v ≠ "Not Specified" ∧ v ≠ "") ∧
    (∀ fields name v, getFieldId fields name = none →
      updateProjectTextField (getFieldId fields name) v = none) ∧
    (∀ (p : RawPayload) (issue : RawIssue) (o r t n u nid md : String)
      (d : List Char) (fetchResult : String → Except String String)
      (pd : ProjectV2Data) (addItemResult : Except String String),
      p.issue = some issue →
      findDocId (parseIssueDataV2 p issue).description.data = some d →
      fetchResult (String.mk d) = Except.ok md →
      ∀ m, PEffect.setFailed m
        ∉ syncIncidentV2Run p ⟨some o, some r, some t, some n⟩ fetchResult
            (.ok (u, nid)) (.ok pd) addItemResult (.ok ())) := by
  refine ⟨?_, ?_, ?_⟩
  · intro fields det fid v hmem
    rw [projectSyncMutations, List.mem_append] at hmem
    rcases hmem with hmem | hmem
    · rw [List.mem_filterMap] at hmem
      obtain ⟨f, hf, hup⟩ := hmem
      unfold updateProjectTextField at hup
      split at hup
      · rename_i fid2 hfid
        split at hup
        · rename_i hw
          have heq := Option.some.inj hup
          simp only [PEffect.fieldMutation.injEq] at heq
          refine ⟨f.1, ?_, ?_, ?_⟩
          · rw [← heq.2]; exact hf
          · rw [hfid, heq.1]
          · rw [← heq.2]
            simpa [isWritableValue, and_assoc] using hw
        · exact absurd hup (by simp)
      · exact absurd hup (by simp)
    · rw [List.mem_filterMap] at hmem
      obtain ⟨f, _, hup⟩ := hmem
      unfold updateProjectDateField at hup
      split at hup
      · exact absurd hup (by simp)
      · split at hup
        · exact absurd hup (by simp)
        · split at hup
          · exact absurd hup (by simp)
          · split at hup
            · exact absurd (Option.some.inj hup) (by simp)
            · exact absurd hup (by simp)
  · intro fields name v h
    rw [h]
    rfl
  · intro p issue o r t n u nid md d fetchResult pd addItemResult
      hIssue hfind hfetch m hmem
    rw [syncIncidentV2Run_shape p issue o r t (some n) u nid md d fetchResult
      (.ok pd) addItemResult (.ok ()) hIssue hfind hfetch] at hmem
    rcases List.mem_append.mp hmem with h | h
    · simp at h
    · exact v2Tail_no_setFailed n (.ok pd) addItemResult _ u m h

/-- Witness for C6: the mapped `Category/Rating/Priority` pair yields
its mutation provenance, a schema lacking that name skips the pair, and
a concrete run with a one-field schema reports success. -/
theorem projectSync_mutation_guard_witness :
    (∃ name, (name, "P1") ∈ textFieldPairs detSeq ∧
      getFieldId [("Category/Rating/Priority", "F7")] name = some "F7" ∧
      "P1" ≠ "Not Found" ∧ "P1" ≠ "Not Specified" ∧ "P1" ≠ "") ∧
    (∀ v, updateProjectTextField
      (getFieldId [("Incident #", "F1")] "Category/Rating/Priority") v
        = none) ∧
    (∀ m, PEffect.setFailed m
      ∉ syncIncidentV2Run payloadWithLink
          ⟨some "acme", some "central", some "tok", some "7"⟩
          (fun _ => Except.ok docMarkdown) (.ok ("https://u", "NID"))
          (.ok ⟨"PID", [("Incident #", "F1")]⟩) (.ok "ITEM") (.ok ())) := by
  refine ⟨projectSync_mutation_guard.1 [("Category/Rating/Priority", "F7")]
      detSeq "F7" "P1" (by decide),
    fun v => projectSync_mutation_guard.2.1 [("Incident #", "F1")]
      "Category/Rating/Priority" v (by decide),
    projectSync_mutation_guard.2.2 payloadWithLink issueWithLink "acme"
      "central" "tok" "7" "https://u" "NID" docMarkdown "ABC123".data
      (fun _ => Except.ok docMarkdown) ⟨"PID", [("Incident #", "F1")]⟩
      (.ok "ITEM") rfl (by decide) rfl⟩

/-- C7: the mirror request copies the source title verbatim, takes the
passed body, appends exactly the fixed marker label
`"mirrored-incident"` to the source labels, and copies assignees when
the source assignee list is non-empty, omitting them otherwise; and in
the run the issue-creation effect carries exactly this request with the
rendered template as its body. -/
theorem mirrorIssueRequest_spec :
    (∀ (o r body : String) (data : IssueDataV2),
      (mirrorIssueRequest o r data body).title = data.title ∧
      (mirrorIssueRequest o r data body).body = body ∧
      (mirrorIssueRequest o r data body).labels
        = data.labels ++ ["mirrored-incident"] ∧
      (data.assignees ≠ [] →
        (mirrorIssueRequest o r data body).assignees = some data.assignees) ∧
      (data.assignees = [] →
        (mirrorIssueRequest o r data body).assignees = none)) ∧
    (∀ (p : RawPayload) (issue : RawIssue) (o r t : String)
      (pn : Option String) (u nid md : String) (d : List Char)
      (fetchResult : String → Except String String)
      (projectDataResult : Except String ProjectV2Data)
      (addItemResult : Except String String)
      (commentResult : Except String Unit),
      p.issue = some issue →
      findDocId (parseIssueDataV2 p issue).description.data = some d →
      fetchResult (String.mk d) = Except.ok md →
      PEffect.createIssue (mirrorIssueRequest o r (parseIssueDataV2 p issue)
        (String.mk (renderTemplate
          (replacements (parseIssueDataV2 p issue)
            (mkIncidentDetailsV2 (parseIssueDataV2 p issue)
              ("https://docs.google.com/document/d/" ++ String.mk d) md))
          incidentMirrorTemplate.data)))
        ∈ syncIncidentV2Run p ⟨some o, some r, some t, pn⟩ fetchResult
            (.ok (u, nid)) projectDataResult addItemResult commentResult) := by
  constructor
  · intro o r body data
    refine ⟨rfl, rfl, rfl, ?_, ?_⟩
    · intro h
      have hlen : data.assignees.length > 0 := List.length_pos.mpr h
      simp [mirrorIssueRequest, hlen]
    · intro h
      simp [mirrorIssueRequest, h]
  · intro p issue o r t pn u nid md d fetchResult projectDataResult
      addItemResult commentResult hIssue hfind hfetch
    rw [syncIncidentV2Run_shape p issue o r t pn u nid md d fetchResult
      projectDataResult addItemResult commentResult hIssue hfind hfetch]
    simp

/-- Witness for C7: a source issue with assignees keeps them, one
without omits them, and the concrete run emits the creation effect with
the rendered template body. -/
theorem mirrorIssueRequest_spec_witness :
    (mirrorIssueRequest "acme" "central" dataSeq "B").assignees
      = some ["alice"] ∧
    (mirrorIssueRequest "acme" "central"
      { dataSeq with assignees := [] } "B").assignees = none ∧
    PEffect.createIssue (mirrorIssueRequest "acme" "central"
      (parseIssueDataV2 payloadWithLink issueWithLink)
      (String.mk (renderTemplate
        (replacements (parseIssueDataV2 payloadWithLink issueWithLink)
          (mkIncidentDetailsV2 (parseIssueDataV2 payloadWithLink issueWithLink)
            ("https://docs.google.com/document/d/" ++ String.mk "ABC123".data)
            docMarkdown))
        incidentMirrorTemplate.data)))
      ∈ syncIncidentV2Run payloadWithLink
          ⟨some "acme", some "central", some "tok", some "7"⟩
          (fun _ => Except.ok docMarkdown) (.ok ("https://u", "NID"))
          (.ok ⟨"PID", []⟩) (.ok "ITEM") (.ok ()) :=
  ⟨(mirrorIssueRequest_spec.1 "acme" "central" "B" dataSeq).2.2.2.1
      (by decide),
   (mirrorIssueRequest_spec.1 "acme" "central" "B"
      { dataSeq with assignees := [] }).2.2.2.2 rfl,
   mirrorIssueRequest_spec.2 payloadWithLink issueWithLink "acme" "central"
     "tok" (some "7") "https://u" "NID" docMarkdown "ABC123".data
     (fun _ => Except.ok docMarkdown) (.ok ⟨"PID", []⟩) (.ok "ITEM") (.ok ())
     rfl (by decide) rfl⟩
